import Mathlib

/-!
Shallow embedding of the stock-critical evaluation core of the Covasa backend
(`src/controllers/inventario.controller.ts` together with the stock-alert
acknowledge/resolve endpoints) and theorems checking the specification's
claims about it.  Time is modelled as epoch milliseconds (`Int`), row ids as
`Nat`, and the relational store as a record of lists.
-/

namespace Covasa

/-- Epoch milliseconds, the unit of JavaScript `Date.getTime()`. -/
abbrev Millis := Int

/-- Prefix test on character lists. -/
def isPrefixChars : List Char → List Char → Bool
  | [], _ => true
  | _ :: _, [] => false
  | a :: as, b :: bs => a == b && isPrefixChars as bs

/-- Occurrence test for a nonempty pattern on character lists. -/
def containsSub (hay pat : List Char) : Bool :=
  isPrefixChars pat hay ||
    match hay with
    | [] => false
    | _ :: t => containsSub t pat

/-- Substring test for a nonempty pattern, mirroring JS
`String.prototype.includes`. -/
def strIncludes (s sub : String) : Bool := containsSub s.data sub.data

/-- Character-wise lower-casing (JS `toLowerCase` on the ASCII range). -/
def strToLower (s : String) : String := String.mk (s.data.map Char.toLower)

/-- Character-wise upper-casing (JS `toUpperCase` on the ASCII range). -/
def strToUpper (s : String) : String := String.mk (s.data.map Char.toUpper)

/-- ASCII whitespace, the relevant fragment of what JS `trim` strips. -/
def isWSChar (c : Char) : Bool := c == ' ' || c == '\t' || c == '\n' || c == '\r'

/-- JS `String.prototype.trim`: strip whitespace from both ends. -/
def jsTrim (s : String) : String :=
  String.mk (((s.data.dropWhile isWSChar).reverse.dropWhile isWSChar).reverse)

/-- Runtime values of the Prisma `ProductoTipo` enum.  The generated client's
`Object.values(ProductoTipo)` reflects the latest migration
(`20251229155127_fletes_tabla_aparte`), which leaves the enum as
`('Producto', 'Servicio')`. -/
def PRODUCTO_TIPO_VALUES : List String := ["Producto", "Servicio"]

/-- `isFleteTipo`: a tipo counts as freight when its string contains "flet"
(case-insensitive); `null`/`undefined` stringify to `""`. -/
def isFleteTipo (tipo : Option String) : Bool :=
  strIncludes (strToLower (tipo.getD "")) "flet"

/-- `mapTipoToPrismaEnum`: maps a human-readable string onto the Prisma enum
by exact match, then case-insensitive exact match, then the "flet"/"prod"
substring heuristic; unmappable strings yield `none`. -/
def mapTipoToPrismaEnum (raw : String) : Option String :=
  let s := jsTrim raw
  if s == "" then none
  else
    let lower := strToLower s
    match PRODUCTO_TIPO_VALUES.find? (fun v => v == s) with
    | some exact => some exact
    | none =>
      match PRODUCTO_TIPO_VALUES.find? (fun v => strToLower v == lower) with
      | some ciExact => some ciExact
      | none =>
        if strIncludes lower "flet" then
          PRODUCTO_TIPO_VALUES.find? (fun v => strIncludes (strToLower v) "flet")
        else if strIncludes lower "prod" then
          PRODUCTO_TIPO_VALUES.find? (fun v => !strIncludes (strToLower v) "flet")
        else none

/- ================== Data model ================== -/

/-- A `Producto` row (the fields the inventory core reads and writes). -/
structure Producto where
  id : Nat
  sku : Option String
  nombre : String
  tipo : String
  precioGeneral : Int
  precioConDescto : Int
  fotoUrl : Option String
  unidadMedida : String
  deriving Repr, DecidableEq, Inhabited

/-- An `Inventario` row; per the migration, `stock` and `minimo` are
`INTEGER NOT NULL DEFAULT 0`. -/
structure Inventario where
  id : Nat
  productoId : Nat
  codigo : Option String
  stock : Int
  minimo : Int
  ubicacion : Option String
  deriving Repr, DecidableEq, Inhabited

/-- The `StockAlert.status` values (`OPEN | ACK | RESOLVED`). -/
inductive AlertStatus where
  | OPEN
  | ACK
  | RESOLVED
  deriving Repr, DecidableEq, Inhabited

/-- A `StockAlert` row.  Modelled from the spec: the alert table's DDL is not
among the repository's migrations; its columns are taken from the spec's data
model and from every field the controllers read or write (`openedAt` defaults
to the row's creation time). -/
structure StockAlert where
  id : Nat
  inventarioId : Nat
  threshold : Int
  stockAtAlert : Int
  status : AlertStatus
  isActive : Bool
  openedAt : Millis
  lastSentAt : Option Millis
  ackAt : Option Millis
  resolvedAt : Option Millis
  channel : String
  deriving Repr, DecidableEq, Inhabited

/-- A `StockCriticalRule` row.  Modelled from the spec: the rule table's DDL
is not among the repository's migrations; absence of a rule is equivalent to
enabled with no overrides. -/
structure StockCriticalRule where
  inventarioId : Nat
  enabled : Bool
  thresholdOverride : Option Int
  cooldownMinutes : Option Int
  lastNotifiedAt : Option Millis
  deriving Repr, DecidableEq, Inhabited

/-- The `TipoMovimientoStock` enum (`Entrada | Salida | Ajuste`). -/
inductive TipoMovimiento where
  | Entrada
  | Salida
  | Ajuste
  deriving Repr, DecidableEq, Inhabited

/-- A `StockMovimiento` ledger row. -/
structure StockMovimiento where
  id : Nat
  inventarioId : Nat
  tipo : TipoMovimiento
  cantidad : Int
  nota : Option String
  deriving Repr, DecidableEq, Inhabited

/-- An `ecommerceNotificacion` row (append-only notification sink). -/
structure Notificacion where
  tipo : String
  referenciaTabla : String
  referenciaId : Nat
  titulo : String
  detalle : String
  leido : Bool
  deriving Repr, DecidableEq, Inhabited

/-- The relational store: one list per table, plus fresh-id counters standing
for the store's id generation. -/
structure DB where
  productos : List Producto
  inventarios : List Inventario
  rules : List StockCriticalRule
  alerts : List StockAlert
  movimientos : List StockMovimiento
  notificaciones : List Notificacion
  nextProductoId : Nat
  nextInventarioId : Nat
  nextAlertId : Nat
  nextMovId : Nat
  deriving Repr, DecidableEq, Inhabited

/- ================== Stock-critical evaluator ================== -/

/-- The system default cooldown, in minutes. -/
def DEFAULT_COOLDOWN_MINUTES : Int := 360

/-- The result of one evaluator run
(`{ action, alertId?, reason? }`). -/
inductive EvalAction where
  | noop
  | created
  | resent
  | resolved
  deriving Repr, DecidableEq, Inhabited

/-- Evaluator result record. -/
structure EvalResult where
  action : EvalAction
  alertId : Option Nat := none
  reason : Option String := none
  deriving Repr, DecidableEq, Inhabited

/-- The alerts of one inventory that are currently `isActive`. -/
def activeAlertsFor (db : DB) (inventarioId : Nat) : List StockAlert :=
  db.alerts.filter (fun a => a.inventarioId == inventarioId && a.isActive)

/-- `findFirst` with `orderBy openedAt desc`: among the candidates, the one
with the greatest `openedAt` (earliest listed wins ties). -/
def pickLatestAlert : List StockAlert → Option StockAlert
  | [] => none
  | a :: rest =>
    match pickLatestAlert rest with
    | none => some a
    | some b => if a.openedAt < b.openedAt then some b else some a

/-- The current active alert of an inventory
(`findFirst where isActive orderBy openedAt desc`). -/
def findActiveAlert (db : DB) (inventarioId : Nat) : Option StockAlert :=
  pickLatestAlert (activeAlertsFor db inventarioId)

/-- Effective threshold: `rule?.thresholdOverride ?? inv.minimo ?? 0` (the
final `?? 0` never fires because `minimo` is `NOT NULL DEFAULT 0`). -/
def effectiveThreshold (rule : Option StockCriticalRule) (inv : Inventario) : Int :=
  (rule.bind StockCriticalRule.thresholdOverride).getD inv.minimo

/-- Effective cooldown: `rule?.cooldownMinutes ?? DEFAULT_COOLDOWN_MINUTES`. -/
def effectiveCooldown (rule : Option StockCriticalRule) : Int :=
  (rule.bind StockCriticalRule.cooldownMinutes).getD DEFAULT_COOLDOWN_MINUTES

/-- Criticality classification: `stock <= threshold`. -/
def isCriticalStock (rule : Option StockCriticalRule) (inv : Inventario) : Bool :=
  decide (inv.stock ≤ effectiveThreshold rule inv)

/-- `update stockCriticalRule where inventarioId set lastNotifiedAt = now`. -/
def stampRuleLastNotified (db : DB) (inventarioId : Nat) (now : Millis) : DB :=
  { db with
    rules := db.rules.map (fun r =>
      if r.inventarioId == inventarioId then { r with lastNotifiedAt := some now } else r) }

/-- Append an `ecommerceNotificacion` row. -/
def pushNotificacion (db : DB) (n : Notificacion) : DB :=
  { db with notificaciones := db.notificaciones ++ [n] }

/-- The "create" transition's writes: insert the new active alert, stamp the
rule (when one exists) and append the notification. -/
def createAlertWrites (db : DB) (inv : Inventario) (hasRule : Bool)
    (threshold : Int) (nombre : String) (now : Millis) : Nat × DB :=
  let alert : StockAlert :=
    { id := db.nextAlertId
      inventarioId := inv.id
      threshold := threshold
      stockAtAlert := inv.stock
      status := .OPEN
      isActive := true
      openedAt := now
      lastSentAt := some now
      ackAt := none
      resolvedAt := none
      channel := "system" }
  let db1 : DB := { db with alerts := db.alerts ++ [alert], nextAlertId := db.nextAlertId + 1 }
  let db2 := if hasRule then stampRuleLastNotified db1 inv.id now else db1
  let db3 := pushNotificacion db2
    { tipo := "STOCK_CRITICO"
      referenciaTabla := "Inventario"
      referenciaId := inv.id
      titulo := "Stock crítico: " ++ nombre
      detalle := "Stock " ++ toString inv.stock ++ " (mínimo " ++ toString threshold ++ ")."
      leido := false }
  (alert.id, db3)

/-- The "resend" transition's writes: refresh `lastSentAt`, `stockAtAlert`
and `threshold` of the active alert (keeping `isActive`), stamp the rule
(when one exists) and append the reminder notification. -/
def resendAlertWrites (db : DB) (inv : Inventario) (alertId : Nat) (hasRule : Bool)
    (threshold : Int) (nombre : String) (now : Millis) : DB :=
  let db1 : DB :=
    { db with
      alerts := db.alerts.map (fun a =>
        if a.id == alertId then
          { a with lastSentAt := some now, stockAtAlert := inv.stock, threshold := threshold }
        else a) }
  let db2 := if hasRule then stampRuleLastNotified db1 inv.id now else db1
  pushNotificacion db2
    { tipo := "STOCK_CRITICO"
      referenciaTabla := "Inventario"
      referenciaId := inv.id
      titulo := "Stock crítico (recordatorio): " ++ nombre
      detalle := "Stock " ++ toString inv.stock ++ " (mínimo " ++ toString threshold ++ ")."
      leido := false }

/-- The "resolve" transition's writes: mark the active alert
`RESOLVED / isActive=false / resolvedAt=now`. -/
def resolveAlertWrites (db : DB) (alertId : Nat) (now : Millis) : DB :=
  { db with
    alerts := db.alerts.map (fun a =>
      if a.id == alertId then
        { a with status := .RESOLVED, isActive := false, resolvedAt := some now }
      else a) }

/-- `evaluateStockCriticalTx`: the core state machine, executed inside the
caller's transaction.  Returns the transition result together with the store
after its writes. -/
def evaluateStockCriticalTx (db : DB) (inventarioId : Nat) (now : Millis) :
    EvalResult × DB :=
  match db.inventarios.find? (fun i => i.id == inventarioId) with
  | none => ({ action := .noop, reason := some "inventario_not_found" }, db)
  | some inv =>
    let producto := db.productos.find? (fun p => p.id == inv.productoId)
    if isFleteTipo (producto.map Producto.tipo) then
      ({ action := .noop, reason := some "producto_es_flete" }, db)
    else
      let rule := db.rules.find? (fun r => r.inventarioId == inventarioId)
      if (match rule with | some r => r.enabled == false | none => false) then
        ({ action := .noop, reason := some "rule_disabled" }, db)
      else
        let threshold := effectiveThreshold rule inv
        let cooldownMinutes := effectiveCooldown rule
        let nombre := (producto.map Producto.nombre).getD ""
        if isCriticalStock rule inv then
          match findActiveAlert db inventarioId with
          | none =>
            let created := createAlertWrites db inv rule.isSome threshold nombre now
            ({ action := .created, alertId := some created.1 }, created.2)
          | some activeAlert =>
            let last : Option Millis :=
              (rule.bind StockCriticalRule.lastNotifiedAt) <|>
                activeAlert.lastSentAt <|> some activeAlert.openedAt
            let cooldownMs := cooldownMinutes * 60 * 1000
            let canResend :=
              match last with
              | none => true
              | some t => decide (t < now - cooldownMs)
            if !canResend then ({ action := .noop, reason := some "cooldown" }, db)
            else
              let db3 := resendAlertWrites db inv activeAlert.id rule.isSome threshold nombre now
              ({ action := .resent, alertId := some activeAlert.id }, db3)
        else
          match findActiveAlert db inventarioId with
          | some activeAlert =>
            (({ action := .resolved, alertId := some activeAlert.id } : EvalResult),
              resolveAlertWrites db activeAlert.id now)
          | none => ({ action := .noop }, db)

/-- `evaluateStockCritical`: the standalone entry point, which wraps the
evaluator in its own transaction. -/
def evaluateStockCritical (db : DB) (inventarioId : Nat) (now : Millis) :
    EvalResult × DB :=
  evaluateStockCriticalTx db inventarioId now

/- ================== Endpoint operations ================== -/

/-- Machine-readable error codes raised by the endpoints
(transaction-aborting domain errors plus not-found). -/
inductive ApiErr where
  | PRODUCTO_NOT_FOUND
  | PRODUCTO_ES_FLETE
  | INV_NOT_FOUND
  | STOCK_NEGATIVO
  | NOT_FOUND
  deriving Repr, DecidableEq, Inhabited

/-- `assertProductoNoEsFlete`: reject when the product does not exist or is a
freight-like tipo. -/
def assertProductoNoEsFlete (db : DB) (productoId : Nat) : Except ApiErr Unit :=
  match db.productos.find? (fun p => p.id == productoId) with
  | none => .error .PRODUCTO_NOT_FOUND
  | some prod =>
    if isFleteTipo (some prod.tipo) then .error .PRODUCTO_ES_FLETE else .ok ()

/-- Result of `createInventario` / `updateInventario`: the record plus the
`stockCritical` key of the JSON response, and the store afterwards. -/
structure InvOpResult where
  inventario : Inventario
  stockCritical : EvalResult
  db : DB
  deriving Repr, DecidableEq, Inhabited

/-- `createInventario` (already past zod validation, so `stock ≥ 0` and
`minimo ≥ 0` hold at call sites): create the record, then evaluate critical
stock for the new id. -/
def createInventario (db : DB) (productoId : Nat) (codigo : Option String)
    (stock minimo : Int) (ubicacion : Option String) (now : Millis) :
    Except ApiErr InvOpResult :=
  match assertProductoNoEsFlete db productoId with
  | .error e => .error e
  | .ok _ =>
  let nuevo : Inventario :=
    { id := db.nextInventarioId
      productoId := productoId
      codigo := codigo
      stock := stock
      minimo := minimo
      ubicacion := ubicacion }
  let db1 : DB :=
    { db with
      inventarios := db.inventarios ++ [nuevo]
      nextInventarioId := db.nextInventarioId + 1 }
  let evalRes := evaluateStockCritical db1 nuevo.id now
  .ok { inventario := nuevo, stockCritical := evalRes.1, db := evalRes.2 }

/-- A PATCH body after zod parsing and normalization: `none` means the field
was absent from the request. -/
structure UpdateBody where
  codigo : Option (Option String) := none
  ubicacion : Option (Option String) := none
  stock : Option Int := none
  minimo : Option Int := none
  deriving Repr, DecidableEq, Inhabited

/-- Apply the defined fields of a PATCH body to a record. -/
def applyInventarioPatch (inv : Inventario) (body : UpdateBody) : Inventario :=
  { inv with
    codigo := body.codigo.getD inv.codigo
    ubicacion := body.ubicacion.getD inv.ubicacion
    stock := body.stock.getD inv.stock
    minimo := body.minimo.getD inv.minimo }

/-- The store after an inventory PATCH: replace the record by its patched
version. -/
def patchInventarioDb (db : DB) (id : Nat) (current : Inventario) (body : UpdateBody) : DB :=
  { db with
    inventarios := db.inventarios.map (fun i =>
      if i.id == id then applyInventarioPatch current body else i) }

/-- `updateInventario`: patch the record, then re-evaluate critical stock
exactly when the body defined `stock` or `minimo`
(`touchedStockOrMin = data.stock !== undefined || data.minimo !== undefined`);
otherwise answer `stockCritical = noop` without running the evaluator. -/
def updateInventario (db : DB) (id : Nat) (body : UpdateBody) (now : Millis) :
    Except ApiErr InvOpResult :=
  match db.inventarios.find? (fun i => i.id == id) with
  | none => .error .NOT_FOUND
  | some current =>
    match assertProductoNoEsFlete db current.productoId with
    | .error e => .error e
    | .ok _ =>
    let actualizado := applyInventarioPatch current body
    let db1 := patchInventarioDb db id current body
    let touchedStockOrMin := body.stock.isSome || body.minimo.isSome
    if touchedStockOrMin then
      let evalRes := evaluateStockCritical db1 id now
      .ok { inventario := actualizado, stockCritical := evalRes.1, db := evalRes.2 }
    else
      .ok { inventario := actualizado, stockCritical := { action := .noop }, db := db1 }

/-- New stock of a movement: `Entrada` adds, `Salida` subtracts, `Ajuste`
sets the absolute value. -/
def nuevoStockFor (stock : Int) (tipo : TipoMovimiento) (cantidad : Int) : Int :=
  match tipo with
  | .Entrada => stock + cantidad
  | .Salida => stock - cantidad
  | .Ajuste => cantidad

/-- Result of `createMovimientoStock`. -/
structure MovOpResult where
  mov : StockMovimiento
  inventario : Inventario
  stockCritical : EvalResult
  db : DB
  deriving Repr, DecidableEq, Inhabited

/-- `createMovimientoStock` (already past zod validation, so `cantidad ≥ 1`
holds at call sites): inside one transaction, reject unknown inventories,
freight products and negative resulting stock; otherwise append the movement
row, persist the new stock and evaluate critical stock atomically. -/
def createMovimientoStock (db : DB) (inventarioId : Nat) (tipo : TipoMovimiento)
    (cantidad : Int) (nota : Option String) (now : Millis) :
    Except ApiErr MovOpResult :=
  match db.inventarios.find? (fun i => i.id == inventarioId) with
  | none => .error .INV_NOT_FOUND
  | some inv =>
    let producto := db.productos.find? (fun p => p.id == inv.productoId)
    if isFleteTipo (producto.map Producto.tipo) then .error .PRODUCTO_ES_FLETE
    else
      let nuevoStock := nuevoStockFor inv.stock tipo cantidad
      if nuevoStock < 0 then .error .STOCK_NEGATIVO
      else
        let mov : StockMovimiento :=
          { id := db.nextMovId
            inventarioId := inventarioId
            tipo := tipo
            cantidad := cantidad
            nota := nota }
        let invUpdated : Inventario := { inv with stock := nuevoStock }
        let db1 : DB :=
          { db with
            movimientos := db.movimientos ++ [mov]
            nextMovId := db.nextMovId + 1
            inventarios := db.inventarios.map (fun i => if i.id == inventarioId then invUpdated else i) }
        let evalRes := evaluateStockCriticalTx db1 inventarioId now
        .ok { mov := mov, inventario := invUpdated, stockCritical := evalRes.1, db := evalRes.2 }

/-- Result of the alert acknowledge/resolve endpoints. -/
structure AlertOpResult where
  alert : StockAlert
  db : DB
  deriving Repr, DecidableEq, Inhabited

/-- `ackStockAlert`: 404 when the alert does not exist; idempotent when the
status is not `OPEN` (the record is returned unchanged, no write); otherwise
set `status = ACK` and `ackAt = now`. -/
def ackStockAlert (db : DB) (id : Nat) (now : Millis) : Except ApiErr AlertOpResult :=
  match db.alerts.find? (fun a => a.id == id) with
  | none => .error .NOT_FOUND
  | some current =>
    if current.status != .OPEN then .ok { alert := current, db := db }
    else
      let updated := { current with status := .ACK, ackAt := some now }
      .ok { alert := updated
            db := { db with alerts := db.alerts.map (fun a => if a.id == id then updated else a) } }

/-- `resolveStockAlert`: 404 when the alert does not exist; idempotent when
the status is already `RESOLVED`; otherwise set `status = RESOLVED` and
`resolvedAt = now` (the endpoint does not touch `isActive`). -/
def resolveStockAlert (db : DB) (id : Nat) (now : Millis) : Except ApiErr AlertOpResult :=
  match db.alerts.find? (fun a => a.id == id) with
  | none => .error .NOT_FOUND
  | some current =>
    if current.status == .RESOLVED then .ok { alert := current, db := db }
    else
      let updated := { current with status := .RESOLVED, resolvedAt := some now }
      .ok { alert := updated
            db := { db with alerts := db.alerts.map (fun a => if a.id == id then updated else a) } }

/- ================== Excel import ================== -/

/-- A numeric spreadsheet cell as seen through JS `Number(raw)`: either a
finite value (finite doubles are rationals) or NaN/±Infinity. -/
inductive CellNum where
  | fin (q : ℚ)
  | nonfinite
  deriving Repr, DecidableEq, Inhabited

/-- JS `Math.trunc` on a finite number: round toward zero. -/
def jsTrunc (q : ℚ) : Int := Int.tdiv q.num q.den

/-- `toInt(raw, def)`: non-finite numbers fall back to the default, finite
ones are truncated. -/
def toInt (raw : CellNum) (d : Int) : Int :=
  match raw with
  | .nonfinite => d
  | .fin q => jsTrunc q

/-- `toNonNegInt(raw, def)`: negative results fall back to the default. -/
def toNonNegInt (raw : CellNum) (d : Int) : Int :=
  let n := toInt raw d
  if n < 0 then d else n

/-- `toNonNegMoney(raw, def)`: same coercion as `toNonNegInt`. -/
def toNonNegMoney (raw : CellNum) (d : Int) : Int :=
  let n := toInt raw d
  if n < 0 then d else n

/-- All-digits test, mirroring the regex `^\d+$`. -/
def isDigitStr (s : String) : Bool := !s.data.isEmpty && s.data.all Char.isDigit

/-- Case-insensitive test for `^TAG-\d+$`. -/
def taggedExactPattern (tag : String) (s : String) : Bool :=
  strToLower (String.mk (s.data.take (tag.data.length + 1))) == strToLower tag ++ "-" &&
    isDigitStr (String.mk (s.data.drop (tag.data.length + 1)))

/-- Case-insensitive match of `^TAG\D*(\d+)$`, returning the captured digit
run: after the tag the string must be non-digits followed by at least one
digit. -/
def taggedLooseDigits (tag : String) (s : String) : Option String :=
  if strToLower (String.mk (s.data.take tag.data.length)) == strToLower tag then
    let rest := s.data.drop tag.data.length
    let ds := (rest.reverse.takeWhile Char.isDigit).reverse
    let front := rest.take (rest.length - ds.length)
    if !ds.isEmpty && front.all (fun c => !c.isDigit) then some (String.mk ds) else none
  else none

/-- Shared normalization of `normalizeSku` / `normalizeInvCode`: trim; empty
becomes `null`; `^TAG-\d+$` is uppercased; bare digits gain the `TAG-`
prefix; `^TAG\D*(\d+)$` is rebuilt as `TAG-digits`; anything else is
uppercased as is. -/
def normalizeTaggedCode (tag : String) (raw : String) : Option String :=
  let s := jsTrim raw
  if s == "" then none
  else if taggedExactPattern tag s then some (strToUpper s)
  else if isDigitStr s then some (tag ++ "-" ++ s)
  else
    match taggedLooseDigits tag s with
    | some ds => some (strToUpper (tag ++ "-" ++ ds))
    | none => some (strToUpper s)

/-- `normalizeSku`. -/
def normalizeSku (raw : String) : Option String := normalizeTaggedCode "SKU" raw

/-- `normalizeInvCode`. -/
def normalizeInvCode (raw : String) : Option String := normalizeTaggedCode "INV" raw

/-- One spreadsheet row after header normalization (`sku, codigo, nombre,
tipo, precio, stock, minimo, fotourl`); text cells are strings, numeric cells
are `CellNum`. -/
structure RawRow where
  sku : String
  codigo : String
  nombre : String
  tipo : String
  precio : CellNum
  stock : CellNum
  minimo : CellNum
  fotourl : String
  deriving Repr, DecidableEq, Inhabited

/-- A validated import row. -/
structure ImportRow where
  sku : String
  codigo : Option String
  nombre : String
  tipo : String
  precio : Int
  stock : Int
  minimo : Int
  fotoUrl : Option String
  deriving Repr, DecidableEq, Inhabited

/-- `parseImportRow`: normalize every field, then reject, in order, a missing
sku, a missing nombre, an unmappable tipo, and a missing codigo for a
non-freight tipo. -/
def parseImportRow (obj : RawRow) : Except String ImportRow :=
  let sku? := normalizeSku obj.sku
  let codigo := normalizeInvCode obj.codigo
  let nombre := jsTrim obj.nombre
  let tipo? := mapTipoToPrismaEnum obj.tipo
  let precio := toNonNegMoney obj.precio 0
  let stock := toNonNegInt obj.stock 0
  let minimo := toNonNegInt obj.minimo 0
  let fotoUrl := if jsTrim obj.fotourl == "" then none else some (jsTrim obj.fotourl)
  match sku? with
  | none => .error "sku es obligatorio"
  | some sku =>
    if nombre == "" then .error "nombre es obligatorio"
    else
      match tipo? with
      | none =>
        .error ("tipo inválido. Valores permitidos: " ++ String.intercalate ", " PRODUCTO_TIPO_VALUES)
      | some tipo =>
        if !isFleteTipo (some tipo) && codigo == none then
          .error "codigo es obligatorio para Producto (INV-xxx)"
        else
          .ok { sku := sku, codigo := codigo, nombre := nombre, tipo := tipo
                precio := precio, stock := stock, minimo := minimo, fotoUrl := fotoUrl }

/-- The per-row unit-of-work flags returned by the row transaction. -/
structure RowFlags where
  productoCreated : Bool
  productoUpdated : Bool
  invCreated : Bool
  invUpdated : Bool
  deriving Repr, DecidableEq, Inhabited

/-- Upsert the product identified by the row's SKU, mirroring the
`existing ? update : create` step of the row transaction. -/
def upsertProductoBySku (db : DB) (row : ImportRow) : Producto × DB :=
  match db.productos.find? (fun p => p.sku == some row.sku) with
  | some found =>
    let updated : Producto :=
      { found with
        sku := some row.sku, nombre := row.nombre, tipo := row.tipo
        precioGeneral := row.precio, precioConDescto := row.precio
        fotoUrl := row.fotoUrl, unidadMedida := "unidad" }
    (updated,
      { db with productos := db.productos.map (fun p => if p.id == found.id then updated else p) })
  | none =>
    let created : Producto :=
      { id := db.nextProductoId
        sku := some row.sku, nombre := row.nombre, tipo := row.tipo
        precioGeneral := row.precio, precioConDescto := row.precio
        fotoUrl := row.fotoUrl, unidadMedida := "unidad" }
    (created,
      { db with
        productos := db.productos ++ [created]
        nextProductoId := db.nextProductoId + 1 })

/-- Upsert the inventory record of a stock-tracked row's product, returning
the `(invCreated, invUpdated, invId, store)` of the row transaction. -/
def upsertInventarioForProducto (db : DB) (productoId : Nat) (row : ImportRow) :
    Bool × Bool × Nat × DB :=
  match db.inventarios.find? (fun i => i.productoId == productoId) with
  | some invFound =>
    let updated : Inventario :=
      { invFound with codigo := row.codigo, stock := row.stock, minimo := row.minimo }
    (false, true, updated.id,
      { db with
        inventarios := db.inventarios.map (fun i => if i.id == invFound.id then updated else i) })
  | none =>
    let created : Inventario :=
      { id := db.nextInventarioId, productoId := productoId, codigo := row.codigo
        stock := row.stock, minimo := row.minimo, ubicacion := none }
    (true, false, created.id,
      { db with
        inventarios := db.inventarios ++ [created]
        nextInventarioId := db.nextInventarioId + 1 })

/-- Delete every inventory record of a product that became non-stock-tracked
(`deleteMany where productoId`).  The migration gives `StockMovimiento`
`ON DELETE CASCADE`; for alerts the cascade is modelled from the spec
(deleting an inventory cascades its movements and alerts). -/
def deleteInventariosForProducto (db : DB) (productoId : Nat) : DB :=
  let deletedIds :=
    (db.inventarios.filter (fun i => i.productoId == productoId)).map Inventario.id
  { db with
    inventarios := db.inventarios.filter (fun i => !(i.productoId == productoId))
    movimientos := db.movimientos.filter (fun m => !(deletedIds.contains m.inventarioId))
    alerts := db.alerts.filter (fun a => !(deletedIds.contains a.inventarioId)) }

/-- One import row's transaction: upsert the product by SKU; for a
non-freight tipo upsert the inventory record and evaluate critical stock
inside the same transaction; for a freight tipo delete the product's
inventory records instead. -/
def importRowTx (db : DB) (row : ImportRow) (now : Millis) : RowFlags × DB :=
  let existing := db.productos.find? (fun p => p.sku == some row.sku)
  let prodAndDb := upsertProductoBySku db row
  let producto := prodAndDb.1
  let db1 := prodAndDb.2
  if !isFleteTipo (some row.tipo) then
    let upsert := upsertInventarioForProducto db1 producto.id row
    let db3 := (evaluateStockCriticalTx upsert.2.2.2 upsert.2.2.1 now).2
    ({ productoCreated := existing.isNone, productoUpdated := existing.isSome
       invCreated := upsert.1, invUpdated := upsert.2.1 }, db3)
  else
    ({ productoCreated := existing.isNone, productoUpdated := existing.isSome
       invCreated := false, invUpdated := false },
      deleteInventariosForProducto db1 producto.id)

/-- The JSON response of the import endpoint, together with the store. -/
structure ImportResult where
  errores : List (Nat × String)
  createdProductos : Nat
  updatedProductos : Nat
  createdInventarios : Nat
  updatedInventarios : Nat
  db : DB
  deriving Repr, DecidableEq, Inhabited

/-- The import loop from row index `i` on.  `failAt j` models whether row
`j`'s transaction fails in the store (duplicate SKU/code, invalid FK, other
storage error) with the message the catch block records; `none` means the
row's transaction commits.  A failing row contributes one
`(excelRowNumber, error)` entry — `excelRowNumber = i + 2` — and, its
transaction having rolled back, leaves the store unchanged. -/
def importLoop (db : DB) (rows : List RawRow) (i : Nat)
    (failAt : Nat → Option String) (now : Millis) : ImportResult :=
  match rows with
  | [] =>
    { errores := [], createdProductos := 0, updatedProductos := 0
      createdInventarios := 0, updatedInventarios := 0, db := db }
  | r :: rest =>
    match parseImportRow r with
    | .error e =>
      let res := importLoop db rest (i + 1) failAt now
      { res with errores := (i + 2, e) :: res.errores }
    | .ok row =>
      match failAt i with
      | some msg =>
        let res := importLoop db rest (i + 1) failAt now
        { res with errores := (i + 2, msg) :: res.errores }
      | none =>
        let step := importRowTx db row now
        let res := importLoop step.2 rest (i + 1) failAt now
        { res with
          createdProductos := (if step.1.productoCreated then 1 else 0) + res.createdProductos
          updatedProductos := (if step.1.productoUpdated then 1 else 0) + res.updatedProductos
          createdInventarios := (if step.1.invCreated then 1 else 0) + res.createdInventarios
          updatedInventarios := (if step.1.invUpdated then 1 else 0) + res.updatedInventarios }

/-- `importInventarioExcel` on already-extracted rows: process every row
sequentially, starting at sheet index 0 (Excel row 2). -/
def importInventarioExcel (db : DB) (rows : List RawRow)
    (failAt : Nat → Option String) (now : Millis) : ImportResult :=
  importLoop db rows 0 failAt now

/- ================== Operation state machine ================== -/

/-- One invocation of the operations the alert ledger is exposed to. -/
inductive Op where
  | evaluate (inventarioId : Nat) (now : Millis)
  | movimiento (inventarioId : Nat) (tipo : TipoMovimiento) (cantidad : Int)
      (nota : Option String) (now : Millis)
  | updateInv (id : Nat) (body : UpdateBody) (now : Millis)
  | createInv (productoId : Nat) (codigo : Option String) (stock minimo : Int)
      (ubicacion : Option String) (now : Millis)
  | importRow (r : RawRow) (txFailure : Option String) (now : Millis)
  | ack (alertId : Nat) (now : Millis)
  | resolveManual (alertId : Nat) (now : Millis)

/-- Apply one operation to the store; a rejected operation's transaction
rolls back, leaving the store unchanged. -/
def applyOp (db : DB) : Op → DB
  | .evaluate invId now => (evaluateStockCritical db invId now).2
  | .movimiento invId tipo cantidad nota now =>
    match createMovimientoStock db invId tipo cantidad nota now with
    | .ok r => r.db
    | .error _ => db
  | .updateInv id body now =>
    match updateInventario db id body now with
    | .ok r => r.db
    | .error _ => db
  | .createInv productoId codigo stock minimo ubicacion now =>
    match createInventario db productoId codigo stock minimo ubicacion now with
    | .ok r => r.db
    | .error _ => db
  | .importRow r txFailure now =>
    match parseImportRow r with
    | .error _ => db
    | .ok row =>
      match txFailure with
      | some _ => db
      | none => (importRowTx db row now).2
  | .ack alertId now =>
    match ackStockAlert db alertId now with
    | .ok r => r.db
    | .error _ => db
  | .resolveManual alertId now =>
    match resolveStockAlert db alertId now with
    | .ok r => r.db
    | .error _ => db

/- ================== Support lemmas ================== -/

/-- Both branches of `createAlertWrites` leave `inventarios` untouched. -/
theorem createAlertWrites_inventarios (db : DB) (inv : Inventario) (hasRule : Bool)
    (th : Int) (nom : String) (now : Millis) :
    ((createAlertWrites db inv hasRule th nom now).2).inventarios = db.inventarios := by
  cases hasRule <;> rfl

/-- Both branches of `resendAlertWrites` leave `inventarios` untouched. -/
theorem resendAlertWrites_inventarios (db : DB) (inv : Inventario) (alertId : Nat)
    (hasRule : Bool) (th : Int) (nom : String) (now : Millis) :
    (resendAlertWrites db inv alertId hasRule th nom now).inventarios = db.inventarios := by
  cases hasRule <;> rfl

/-- `resolveAlertWrites` leaves `inventarios` untouched. -/
theorem resolveAlertWrites_inventarios (db : DB) (alertId : Nat) (now : Millis) :
    (resolveAlertWrites db alertId now).inventarios = db.inventarios := rfl

/-- `resolveAlertWrites` maps the closing update over the alert table. -/
theorem resolveAlertWrites_alerts (db : DB) (alertId : Nat) (now : Millis) :
    (resolveAlertWrites db alertId now).alerts =
      db.alerts.map (fun a => if a.id == alertId then
        { a with status := .RESOLVED, isActive := false, resolvedAt := some now }
      else a) := rfl

/-- Branch characterization of one evaluator run: it is a no-op, a creation
(when no active alert exists), a resend of the found active alert, or a
resolution of the found active alert. -/
theorem evaluateStockCriticalTx_cases (db : DB) (inventarioId : Nat) (now : Millis)
    (res : EvalResult) (db' : DB)
    (h : evaluateStockCriticalTx db inventarioId now = (res, db')) :
    (res.action = .noop ∧ db' = db) ∨
    (res.action = .created ∧ findActiveAlert db inventarioId = none ∧
      ∃ inv hasRule th nom,
        List.find? (fun i => i.id == inventarioId) db.inventarios = some inv ∧
        db' = (createAlertWrites db inv hasRule th nom now).2) ∨
    (res.action = .resent ∧
      ∃ a inv hasRule th nom, findActiveAlert db inventarioId = some a ∧
        res.alertId = some a.id ∧ db' = resendAlertWrites db inv a.id hasRule th nom now) ∨
    (res.action = .resolved ∧
      ∃ a, findActiveAlert db inventarioId = some a ∧
        res.alertId = some a.id ∧ db' = resolveAlertWrites db a.id now) := by
  unfold evaluateStockCriticalTx at h
  cases hfind : List.find? (fun i => i.id == inventarioId) db.inventarios with
  | none =>
    simp only [hfind] at h
    cases h
    exact Or.inl ⟨rfl, rfl⟩
  | some inv =>
    simp only [hfind] at h
    cases hact : findActiveAlert db inventarioId with
    | none =>
      simp only [hact] at h
      split at h
      · cases h
        exact Or.inl ⟨rfl, rfl⟩
      · split at h
        · cases h
          exact Or.inl ⟨rfl, rfl⟩
        · split at h
          · cases h
            exact Or.inr (Or.inl ⟨rfl, rfl, inv, _, _, _, rfl, rfl⟩)
          · cases h
            exact Or.inl ⟨rfl, rfl⟩
    | some a =>
      simp only [hact] at h
      split at h
      · cases h
        exact Or.inl ⟨rfl, rfl⟩
      · split at h
        · cases h
          exact Or.inl ⟨rfl, rfl⟩
        · split at h
          · split at h
            · cases h
              exact Or.inl ⟨rfl, rfl⟩
            · cases h
              exact Or.inr (Or.inr (Or.inl ⟨rfl, a, inv, _, _, _, rfl, rfl, rfl⟩))
          · cases h
            exact Or.inr (Or.inr (Or.inr ⟨rfl, a, rfl, rfl, rfl⟩))

/-- The evaluator only writes alerts, rules and notifications: the
`inventarios` table is untouched. -/
theorem evaluateStockCriticalTx_inventarios (db : DB) (inventarioId : Nat) (now : Millis) :
    ((evaluateStockCriticalTx db inventarioId now).2).inventarios = db.inventarios := by
  rcases evaluateStockCriticalTx_cases db inventarioId now
      (evaluateStockCriticalTx db inventarioId now).1
      (evaluateStockCriticalTx db inventarioId now).2 rfl with
    ⟨_, h2⟩ | ⟨_, _, inv, hasRule, th, nom, _, h2⟩ |
    ⟨_, a, inv, hasRule, th, nom, _, _, h2⟩ | ⟨_, a, _, _, h2⟩
  · rw [h2]
  · rw [h2, createAlertWrites_inventarios]
  · rw [h2, resendAlertWrites_inventarios]
  · rw [h2, resolveAlertWrites_inventarios]

/- ================== Fixtures ================== -/

/-- A plain stock-tracked product. -/
def tornillo : Producto :=
  { id := 1, sku := some "SKU-1", nombre := "Tornillo", tipo := "Producto"
    precioGeneral := 10, precioConDescto := 10, fotoUrl := none, unidadMedida := "unidad" }

/-- A single inventory record for `tornillo`. -/
def singleInv (stock minimo : Int) : Inventario :=
  { id := 1, productoId := 1, codigo := some "INV-1", stock := stock, minimo := minimo
    ubicacion := none }

/-- A store holding `tornillo` and one inventory record, with the given rule
and alert rows. -/
def singleInvDb (stock minimo : Int) (rules : List StockCriticalRule)
    (alerts : List StockAlert) : DB :=
  { productos := [tornillo]
    inventarios := [singleInv stock minimo]
    rules := rules
    alerts := alerts
    movimientos := []
    notificaciones := []
    nextProductoId := 2
    nextInventarioId := 2
    nextAlertId := 2
    nextMovId := 1 }

/-- An open, active alert for inventory 1, opened and last sent at `t`. -/
def openAlert (t : Millis) : StockAlert :=
  { id := 1, inventarioId := 1, threshold := 5, stockAtAlert := 0, status := .OPEN
    isActive := true, openedAt := t, lastSentAt := some t, ackAt := none
    resolvedAt := none, channel := "system" }

/-- A rule enabling a threshold override of 5. -/
def overrideRule : StockCriticalRule :=
  { inventarioId := 1, enabled := true, thresholdOverride := some 5
    cooldownMinutes := none, lastNotifiedAt := none }

/-- Inventory with `minimo = 0`, `stock = 5` and a rule overriding the
threshold to 5. -/
def overrideDb : DB := singleInvDb 5 0 [overrideRule] []

/- ================== Claims ================== -/

/-- Claim C7: the evaluator classifies an inventory as critical exactly when
`stock ≤ effectiveThreshold`, where the effective threshold is
`rule.thresholdOverride ?? inv.minimo ?? 0`; stock equal to the threshold is
critical, `threshold + 1` is not, and a `thresholdOverride = 5` on an
inventory with `minimo = 0` makes `stock = 5` critical (witnessed on the
evaluator itself, which then creates an alert). -/
theorem C7_critical_classification :
    (∀ (rule : Option StockCriticalRule) (inv : Inventario),
        isCriticalStock rule inv = true ↔ inv.stock ≤ effectiveThreshold rule inv) ∧
    (∀ (rule : Option StockCriticalRule) (inv : Inventario),
        isCriticalStock rule { inv with stock := effectiveThreshold rule inv } = true) ∧
    (∀ (rule : Option StockCriticalRule) (inv : Inventario),
        isCriticalStock rule { inv with stock := effectiveThreshold rule inv + 1 } = false) ∧
    (∀ (r : StockCriticalRule) (inv : Inventario),
        isCriticalStock (some { r with thresholdOverride := some 5 })
          { inv with stock := 5, minimo := 0 } = true) ∧
    (evaluateStockCriticalTx overrideDb 1 0).1 = { action := .created, alertId := some 2 } := by
  refine ⟨?_, ?_, ?_, ?_, by decide⟩
  · intro rule inv
    simp [isCriticalStock]
  · intro rule inv
    simp [isCriticalStock, effectiveThreshold]
  · intro rule inv
    simp [isCriticalStock, effectiveThreshold]
  · intro r inv
    simp [isCriticalStock, effectiveThreshold]

/-- Claim C8: for every accepted movement on prior stock `s` with quantity
`q > 0`, the persisted stock is `s + q` for `Entrada`, `s - q` for `Salida`,
and exactly `q` (absolute set, independent of `s`) for `Ajuste`; the new
value is both returned and stored for the moved inventory id. -/
theorem C8_movement_stock_formula :
    ∀ (db : DB) (inventarioId : Nat) (tipo : TipoMovimiento) (cantidad : Int)
      (nota : Option String) (now : Millis) (inv : Inventario) (r : MovOpResult),
      0 < cantidad →
      db.inventarios.find? (fun i => i.id == inventarioId) = some inv →
      createMovimientoStock db inventarioId tipo cantidad nota now = .ok r →
      r.inventario.stock = nuevoStockFor inv.stock tipo cantidad ∧
      (tipo = .Entrada → r.inventario.stock = inv.stock + cantidad) ∧
      (tipo = .Salida → r.inventario.stock = inv.stock - cantidad) ∧
      (tipo = .Ajuste → r.inventario.stock = cantidad) ∧
      (∀ i ∈ r.db.inventarios, i.id = inventarioId →
        i.stock = nuevoStockFor inv.stock tipo cantidad) := by
  intro db inventarioId tipo cantidad nota now inv r hq hfind hok
  unfold createMovimientoStock at hok
  simp only [hfind] at hok
  split at hok
  · exact absurd hok (by simp)
  · split at hok
    · exact absurd hok (by simp)
    · cases hok
      refine ⟨rfl, fun ht => by rw [ht]; rfl, fun ht => by rw [ht]; rfl,
        fun ht => by rw [ht]; rfl, ?_⟩
      intro i hi hid
      rw [evaluateStockCriticalTx_inventarios] at hi
      simp only [List.mem_map] at hi
      obtain ⟨x, _, hx⟩ := hi
      by_cases hxid : (x.id == inventarioId) = true
      · rw [hxid] at hx
        simp at hx
        rw [← hx]
      · rw [Bool.not_eq_true] at hxid
        rw [hxid] at hx
        simp at hx
        subst hx
        simp [hid] at hxid

/-- Store with inventory stock 10 and no alert rows. -/
def movementDb : DB := singleInvDb 10 0 [] []

/-- The result of posting an entry of 5 against `movementDb`. -/
def movementRes : MovOpResult :=
  (createMovimientoStock movementDb 1 .Entrada 5 none 0).toOption.getD default

/-- Witness for C8 at a concrete input: an `Entrada` of 5 on stock 10
persists stock 15. -/
theorem C8_movement_stock_formula_witness :
    (0 : Int) < 5 ∧ movementRes.inventario.stock = 10 + 5 :=
  ⟨by decide,
    (C8_movement_stock_formula movementDb 1 .Entrada 5 none 0 (singleInv 10 0) movementRes
      (by decide) rfl rfl).2.1 rfl⟩

/-- Claim C6: `createMovimientoStock` rejects exactly when the inventory does
not exist (`INV_NOT_FOUND`), the product is freight (`PRODUCTO_ES_FLETE`), or
the computed stock would be negative (`STOCK_NEGATIVO`); these are the only
rejections, a rejection leaves the store unchanged, and every completed
movement both returns and persists a stock `≥ 0`. -/
theorem C6_movement_rejection :
    ∀ (db : DB) (inventarioId : Nat) (tipo : TipoMovimiento) (cantidad : Int)
      (nota : Option String) (now : Millis),
      (createMovimientoStock db inventarioId tipo cantidad nota now = .error .INV_NOT_FOUND ↔
        db.inventarios.find? (fun i => i.id == inventarioId) = none) ∧
      (createMovimientoStock db inventarioId tipo cantidad nota now = .error .PRODUCTO_ES_FLETE ↔
        ∃ inv, db.inventarios.find? (fun i => i.id == inventarioId) = some inv ∧
          isFleteTipo ((db.productos.find? (fun p => p.id == inv.productoId)).map
            Producto.tipo) = true) ∧
      (createMovimientoStock db inventarioId tipo cantidad nota now = .error .STOCK_NEGATIVO ↔
        ∃ inv, db.inventarios.find? (fun i => i.id == inventarioId) = some inv ∧
          isFleteTipo ((db.productos.find? (fun p => p.id == inv.productoId)).map
            Producto.tipo) = false ∧
          nuevoStockFor inv.stock tipo cantidad < 0) ∧
      (∀ e, createMovimientoStock db inventarioId tipo cantidad nota now = .error e →
        (e = .INV_NOT_FOUND ∨ e = .PRODUCTO_ES_FLETE ∨ e = .STOCK_NEGATIVO) ∧
        applyOp db (.movimiento inventarioId tipo cantidad nota now) = db) ∧
      (∀ r, createMovimientoStock db inventarioId tipo cantidad nota now = .ok r →
        0 ≤ r.inventario.stock ∧
        ∀ i ∈ r.db.inventarios, i.id = inventarioId → 0 ≤ i.stock) := by
  intro db inventarioId tipo cantidad nota now
  cases hfind : db.inventarios.find? (fun i => i.id == inventarioId) with
  | none =>
    have hc : createMovimientoStock db inventarioId tipo cantidad nota now =
        .error .INV_NOT_FOUND := by
      unfold createMovimientoStock
      rw [hfind]
    refine ⟨by simp [hc, hfind], by simp [hc, hfind], by simp [hc, hfind], ?_, ?_⟩
    · intro e he
      rw [hc] at he
      simp only [Except.error.injEq] at he
      exact ⟨Or.inl he.symm, by simp [applyOp, hc]⟩
    · intro r hr
      rw [hc] at hr
      exact absurd hr (by simp)
  | some inv =>
    cases hflete : isFleteTipo ((db.productos.find? (fun p => p.id == inv.productoId)).map
        Producto.tipo) with
    | true =>
      have hc : createMovimientoStock db inventarioId tipo cantidad nota now =
          .error .PRODUCTO_ES_FLETE := by
        unfold createMovimientoStock
        rw [hfind]
        simp [hflete]
      refine ⟨by simp [hc, hfind], ?_, by simp [hc, hfind, hflete], ?_, ?_⟩
      · simp only [hc, hfind]
        constructor
        · intro _
          exact ⟨inv, rfl, hflete⟩
        · intro _
          trivial
      · intro e he
        rw [hc] at he
        simp only [Except.error.injEq] at he
        exact ⟨Or.inr (Or.inl he.symm), by simp [applyOp, hc]⟩
      · intro r hr
        rw [hc] at hr
        exact absurd hr (by simp)
    | false =>
      by_cases hneg : nuevoStockFor inv.stock tipo cantidad < 0
      · have hc : createMovimientoStock db inventarioId tipo cantidad nota now =
            .error .STOCK_NEGATIVO := by
          unfold createMovimientoStock
          rw [hfind]
          simp [hflete, hneg]
        refine ⟨by simp [hc, hfind], by simp [hc, hfind, hflete], ?_, ?_, ?_⟩
        · simp only [hc, hfind]
          constructor
          · intro _
            exact ⟨inv, rfl, hflete, hneg⟩
          · intro _
            trivial
        · intro e he
          rw [hc] at he
          simp only [Except.error.injEq] at he
          exact ⟨Or.inr (Or.inr he.symm), by simp [applyOp, hc]⟩
        · intro r hr
          rw [hc] at hr
          exact absurd hr (by simp)
      · have hok : ∃ r, createMovimientoStock db inventarioId tipo cantidad nota now =
            .ok r ∧ r.inventario.stock = nuevoStockFor inv.stock tipo cantidad ∧
            r.db.inventarios = db.inventarios.map (fun i => if i.id == inventarioId then
              { inv with stock := nuevoStockFor inv.stock tipo cantidad } else i) := by
          unfold createMovimientoStock
          rw [hfind]
          simp only [hflete, Bool.false_eq_true, if_false, if_neg hneg]
          exact ⟨_, rfl, rfl, evaluateStockCriticalTx_inventarios _ _ _⟩
        obtain ⟨rr, hc, hstock, hinvs⟩ := hok
        refine ⟨by simp [hc, hfind], by simp [hc, hfind, hflete], by simp [hc, hfind, hflete, hneg], ?_, ?_⟩
        · intro e he
          rw [hc] at he
          exact absurd he (by simp)
        · intro r hr
          rw [hc] at hr
          simp only [Except.ok.injEq] at hr
          subst hr
          refine ⟨hstock ▸ Int.not_lt.mp hneg, ?_⟩
          intro i hi hid
          rw [hinvs] at hi
          simp only [List.mem_map] at hi
          obtain ⟨x, _, hx⟩ := hi
          by_cases hxid : (x.id == inventarioId) = true
          · rw [hxid] at hx
            simp at hx
            rw [← hx]
            exact Int.not_lt.mp hneg
          · rw [Bool.not_eq_true] at hxid
            rw [hxid] at hx
            simp at hx
            subst hx
            simp [hid] at hxid

/-- Witness for C6 at a concrete input: a `Salida` of 15 on stock 10 is
rejected with `STOCK_NEGATIVO` and leaves the store unchanged. -/
theorem C6_movement_rejection_witness :
    createMovimientoStock movementDb 1 .Salida 15 none 0 = .error .STOCK_NEGATIVO ∧
    applyOp movementDb (.movimiento 1 .Salida 15 none 0) = movementDb :=
  ⟨rfl, ((C6_movement_rejection movementDb 1 .Salida 15 none 0).2.2.2.1
      .STOCK_NEGATIVO rfl).2⟩

/-- A nonpositive numerator truncates to a nonpositive integer. -/
theorem jsTrunc_nonpos (q : ℚ) (h : q.num ≤ 0) : jsTrunc q ≤ 0 := by
  unfold jsTrunc
  rcases hn : q.num with m | m
  · have h2 : Int.ofNat m ≤ 0 := hn ▸ h
    have hm : m = 0 := by
      simp only [Int.ofNat_eq_coe] at h2
      omega
    subst hm
    show Int.tdiv 0 q.den ≤ 0
    simp [Int.tdiv]
  · have hden : (q.den : Int) = Int.ofNat q.den := rfl
    rw [hden]
    have hred : Int.tdiv (Int.negSucc m) (Int.ofNat q.den) =
        -(Int.ofNat (Nat.succ m / q.den)) := rfl
    rw [hred]
    exact neg_nonpos.mpr (Int.ofNat_nonneg _)

/-- Claim C10 (implicit): `parseImportRow` reports a row error exactly for a
missing sku, a missing nombre, an unmappable tipo, or a missing codigo on a
non-freight row; a negative or non-finite `stock`, `minimo` or `precio` cell
is never a row error — it is silently coerced to the default 0 and the row
parses normally. -/
theorem C10_numeric_coercion :
    ∀ (obj : RawRow),
      ((∃ e, parseImportRow obj = .error e) ↔
        (normalizeSku obj.sku = none ∨ jsTrim obj.nombre = "" ∨
          mapTipoToPrismaEnum obj.tipo = none ∨
          (∃ t, mapTipoToPrismaEnum obj.tipo = some t ∧ isFleteTipo (some t) = false ∧
            normalizeInvCode obj.codigo = none))) ∧
      (∀ row, parseImportRow obj = .ok row →
        row.stock = toNonNegInt obj.stock 0 ∧ row.minimo = toNonNegInt obj.minimo 0 ∧
        row.precio = toNonNegMoney obj.precio 0) ∧
      (∀ q : ℚ, q < 0 → toNonNegInt (.fin q) 0 = 0 ∧ toNonNegMoney (.fin q) 0 = 0) ∧
      toNonNegInt .nonfinite 0 = 0 ∧ toNonNegMoney .nonfinite 0 = 0 := by
  intro obj
  have hnum : ∀ q : ℚ, q < 0 → toNonNegInt (.fin q) 0 = 0 ∧ toNonNegMoney (.fin q) 0 = 0 := by
    intro q hq
    have hnn : q.num ≤ 0 := by
      rcases le_or_lt q.num 0 with h | h
      · exact h
      · exact absurd (Rat.num_nonneg.mp (le_of_lt h)) (not_le.mpr hq)
    have ht := jsTrunc_nonpos q hnn
    constructor <;>
      · simp only [toNonNegInt, toNonNegMoney, toInt]
        split <;> omega
  refine ⟨?_, ?_, hnum, rfl, rfl⟩
  · cases hsku : normalizeSku obj.sku with
    | none => simp [parseImportRow, hsku]
    | some sku =>
      by_cases hnom : jsTrim obj.nombre = ""
      · simp [parseImportRow, hsku, hnom]
      · cases htipo : mapTipoToPrismaEnum obj.tipo with
        | none => simp [parseImportRow, hsku, hnom, htipo]
        | some t =>
          cases hflete : isFleteTipo (some t) with
          | true => simp [parseImportRow, hsku, hnom, htipo, hflete]
          | false =>
            cases hcod : normalizeInvCode obj.codigo with
            | none => simp [parseImportRow, hsku, hnom, htipo, hflete, hcod]
            | some c => simp [parseImportRow, hsku, hnom, htipo, hflete, hcod]
  · intro row hrow
    simp only [parseImportRow] at hrow
    repeat' split at hrow
    all_goals (cases hrow <;> exact ⟨rfl, rfl, rfl⟩)

/-- A row whose stock cell is the negative number -3. -/
def negativeStockRow : RawRow :=
  { sku := "SKU-9", codigo := "INV-9", nombre := "Clavo", tipo := "Producto"
    precio := .fin 100, stock := .fin (-3), minimo := .fin 2, fotourl := "" }

/-- The parse of `negativeStockRow`. -/
def negativeStockParsed : ImportRow :=
  (parseImportRow negativeStockRow).toOption.getD
    { sku := "", codigo := none, nombre := "", tipo := "", precio := 0, stock := 0
      minimo := 0, fotoUrl := none }

/-- Witness for C10 at a concrete input: a row with stock cell -3 parses
without a row error, and its stock is coerced to 0. -/
theorem C10_numeric_coercion_witness :
    parseImportRow negativeStockRow = .ok negativeStockParsed ∧
    negativeStockParsed.stock = 0 := by
  refine ⟨rfl, ?_⟩
  have h2 := ((C10_numeric_coercion negativeStockRow).2.1 negativeStockParsed rfl).1
  have h3 := ((C10_numeric_coercion negativeStockRow).2.2.1 (-3) (by decide)).1
  rw [h2]
  exact h3

/-- An alert for inventory 1 that has already been acknowledged. -/
def ackedAlert : StockAlert :=
  { id := 1, inventarioId := 1, threshold := 5, stockAtAlert := 0, status := .ACK
    isActive := true, openedAt := 0, lastSentAt := some 0, ackAt := some 1
    resolvedAt := none, channel := "system" }

/-- Store holding `ackedAlert`. -/
def ackedDb : DB := singleInvDb 0 5 [] [ackedAlert]

/-- Counterexample to claim C3 as stated: resolving an alert whose status is
already `ACK` does not return the unchanged record — it writes
`status = RESOLVED` and `resolvedAt`, changing both the record and the
store. -/
theorem C3_counterexample_resolve_ack :
    (resolveStockAlert ackedDb 1 50).toOption.map (fun r => r.alert.status) =
      some .RESOLVED ∧
    (resolveStockAlert ackedDb 1 50).toOption.map AlertOpResult.alert ≠ some ackedAlert ∧
    (resolveStockAlert ackedDb 1 50).toOption.map AlertOpResult.db ≠ some ackedDb := by
  decide

/-- Claim C3, amended: `ackStockAlert` is idempotent for every status other
than `OPEN` (record returned unchanged, no write), while `resolveStockAlert`
is idempotent only for `RESOLVED`; resolving an `ACK` alert performs a write
that sets `status = RESOLVED` and `resolvedAt = now`. -/
theorem C3_ack_resolve_idempotence :
    (∀ (db : DB) (id : Nat) (now : Millis) (a : StockAlert),
        db.alerts.find? (fun x => x.id == id) = some a → a.status ≠ .OPEN →
        ackStockAlert db id now = .ok { alert := a, db := db }) ∧
    (∀ (db : DB) (id : Nat) (now : Millis) (a : StockAlert),
        db.alerts.find? (fun x => x.id == id) = some a → a.status = .RESOLVED →
        resolveStockAlert db id now = .ok { alert := a, db := db }) ∧
    (∀ (db : DB) (id : Nat) (now : Millis) (a : StockAlert),
        db.alerts.find? (fun x => x.id == id) = some a → a.status = .ACK →
        resolveStockAlert db id now = .ok
          { alert := { a with status := .RESOLVED, resolvedAt := some now }
            db := { db with alerts := db.alerts.map (fun x => if x.id == id then
              { a with status := .RESOLVED, resolvedAt := some now } else x) } }) := by
  refine ⟨?_, ?_, ?_⟩
  · intro db id now a hfind hst
    unfold ackStockAlert
    rw [hfind]
    have hb : (a.status != .OPEN) = true := by
      cases h : a.status <;> simp_all
    simp [hb]
  · intro db id now a hfind hst
    unfold resolveStockAlert
    rw [hfind]
    simp [hst]
  · intro db id now a hfind hst
    unfold resolveStockAlert
    rw [hfind]
    simp [hst]

/-- Witness for C3 at a concrete input: acknowledging the already-ACK alert
returns it unchanged together with the unchanged store. -/
theorem C3_ack_resolve_idempotence_witness :
    ackStockAlert ackedDb 1 99 = .ok { alert := ackedAlert, db := ackedDb } :=
  C3_ack_resolve_idempotence.1 ackedDb 1 99 ackedAlert rfl (by decide)

/-- Store holding one open, active alert for inventory 1. -/
def openActiveDb : DB := singleInvDb 0 5 [] [openAlert 0]

/-- Counterexample to claim C4 as stated: the manual resolve endpoint sets
`status = RESOLVED` without clearing `isActive`, so a state containing an
alert with `status = RESOLVED` and `isActive = true` is reachable. -/
theorem C4_counterexample_manual_resolve :
    (resolveStockAlert openActiveDb 1 80).toOption.map
      (fun r => r.db.alerts.any (fun a => a.status == .RESOLVED && a.isActive)) =
      some true := by
  decide

/-- Claim C4, amended: the evaluator's resolve transition does close the
episode — the resolved alert ends with `status = RESOLVED`,
`isActive = false` and `resolvedAt = now` — but the manual resolve endpoint
only sets `status = RESOLVED` and `resolvedAt`, leaving every alert's
`isActive` exactly as it was (so `RESOLVED ∧ isActive` is reachable through
manual resolve). -/
theorem C4_resolve_deactivation :
    (∀ (db : DB) (inventarioId : Nat) (now : Millis) (res : EvalResult) (db' : DB),
        evaluateStockCriticalTx db inventarioId now = (res, db') →
        res.action = .resolved →
        ∀ x ∈ db'.alerts, some x.id = res.alertId →
          x.status = .RESOLVED ∧ x.isActive = false ∧ x.resolvedAt = some now) ∧
    (∀ (db : DB) (id : Nat) (now : Millis) (r : AlertOpResult),
        (db.alerts.map StockAlert.id).Nodup →
        resolveStockAlert db id now = .ok r →
        r.db.alerts.map StockAlert.isActive = db.alerts.map StockAlert.isActive ∧
        r.alert.status = .RESOLVED) := by
  constructor
  · intro db inventarioId now res db' h hres x hx hid
    rcases evaluateStockCriticalTx_cases db inventarioId now res db' h with
      ⟨ha, _⟩ | ⟨ha, _⟩ | ⟨ha, _⟩ | ⟨_, a, hact, haid, hdb'⟩
    · exact absurd (ha.symm.trans hres) (by simp)
    · exact absurd (ha.symm.trans hres) (by simp)
    · exact absurd (ha.symm.trans hres) (by simp)
    · subst hdb'
      unfold resolveAlertWrites at hx
      simp only [List.mem_map] at hx
      obtain ⟨e, _, he⟩ := hx
      rw [haid] at hid
      simp only [Option.some.injEq] at hid
      by_cases heid : (e.id == a.id) = true
      · rw [heid] at he
        simp at he
        rw [← he]
        exact ⟨rfl, rfl, rfl⟩
      · rw [Bool.not_eq_true] at heid
        rw [heid] at he
        simp at he
        subst he
        simp [hid] at heid
  · intro db id now r hnd h
    unfold resolveStockAlert at h
    cases hfind : db.alerts.find? (fun x => x.id == id) with
    | none =>
      rw [hfind] at h
      exact absurd h (by simp)
    | some current =>
      rw [hfind] at h
      have hmemc : current ∈ db.alerts := List.mem_of_find?_eq_some hfind
      have hcid0 := List.find?_some hfind
      have hcid : (current.id == id) = true := hcid0
      by_cases hres : (current.status == AlertStatus.RESOLVED) = true
      · simp only [hres, if_true] at h
        simp only [Except.ok.injEq] at h
        subst h
        refine ⟨rfl, ?_⟩
        simpa using hres
      · rw [Bool.not_eq_true] at hres
        simp only [hres, Bool.false_eq_true, if_false] at h
        simp only [Except.ok.injEq] at h
        subst h
        refine ⟨?_, rfl⟩
        show (db.alerts.map (fun x => if x.id == id then
          { current with status := .RESOLVED, resolvedAt := some now } else x)).map
            StockAlert.isActive = db.alerts.map StockAlert.isActive
        rw [List.map_map]
        apply List.map_congr_left
        intro e hmem
        by_cases heid : (e.id == id) = true
        · have hee : e = current := by
            apply List.inj_on_of_nodup_map hnd hmem hmemc
            have h1 : e.id = id := by simpa using heid
            have h2 : current.id = id := by simpa using hcid
            rw [h1, h2]
          have heq : e.id = id := by simpa using heid
          subst hee
          simp [heq]
        · have heq : ¬(e.id = id) := by simpa using heid
          simp [heq]

/-- Store where inventory 1 has recovered (stock 10 above minimo 5) while an
active alert is still open. -/
def recoveredDb : DB := singleInvDb 10 5 [] [openAlert 0]

/-- The alert left after evaluating `recoveredDb`. -/
def recoveredAlert : StockAlert :=
  (evaluateStockCriticalTx recoveredDb 1 7).2.alerts.getD 0 (openAlert 0)

/-- Witness for C4 at a concrete input: evaluating a recovered inventory
resolves the open alert with `isActive = false` and `resolvedAt` set, and the
manual endpoint on `ackedDb` keeps every `isActive` unchanged. -/
theorem C4_resolve_deactivation_witness :
    (recoveredAlert.status = .RESOLVED ∧ recoveredAlert.isActive = false ∧
      recoveredAlert.resolvedAt = some 7) ∧
    ((resolveStockAlert ackedDb 1 50).toOption.getD
        { alert := ackedAlert, db := ackedDb }).db.alerts.map StockAlert.isActive =
      ackedDb.alerts.map StockAlert.isActive :=
  ⟨C4_resolve_deactivation.1 recoveredDb 1 7
      (evaluateStockCriticalTx recoveredDb 1 7).1
      (evaluateStockCriticalTx recoveredDb 1 7).2 rfl (by decide)
      recoveredAlert (by decide) (by decide),
    (C4_resolve_deactivation.2 ackedDb 1 50
      ((resolveStockAlert ackedDb 1 50).toOption.getD
        { alert := ackedAlert, db := ackedDb }) (by decide) rfl).1⟩

/-- Store with a critical inventory (stock 0, minimo 5), no rule (so the
default 360-minute cooldown applies), and an active alert whose last
notification time is `t` (`lastNotified = rule.lastNotifiedAt ??
alert.lastSentAt ?? alert.openedAt = t`). -/
def cooldownDb (t : Millis) : DB := singleInvDb 0 5 [] [openAlert t]

/-- Counterexample to claim C2 as stated: with the default cooldown of 360
minutes and last notification at T = 0, an evaluation at exactly
T + 360 min (21600000 ms) returns noop/cooldown with no state change — not
the `resent` the claim requires at `now - lastNotified = cooldownMinutes`. -/
theorem C2_counterexample_exact_boundary :
    evaluateStockCriticalTx (cooldownDb 0) 1 21600000 =
      ({ action := .noop, alertId := none, reason := some "cooldown" }, cooldownDb 0) ∧
    (evaluateStockCriticalTx (cooldownDb 0) 1 21600000).1.action ≠ .resent := by
  decide

/-- Claim C2, amended: the cooldown comparison is strict
(`last.getTime() < now.getTime() - cooldownMs`): while still critical with an
active alert last notified at `t` and the default `cooldownMinutes = 360`,
every evaluation at `now ≤ t + 360 min` returns noop/cooldown with the store
unchanged (this covers T+359 min and also exactly T+360 min), and every
evaluation at `now > t + 360 min` returns `resent`, refreshing the alert's
`lastSentAt`. -/
theorem C2_cooldown_strict (t now : Int) :
    (now - t ≤ 360 * 60 * 1000 →
      evaluateStockCriticalTx (cooldownDb t) 1 now =
        ({ action := .noop, alertId := none, reason := some "cooldown" }, cooldownDb t)) ∧
    (now - t > 360 * 60 * 1000 →
      (evaluateStockCriticalTx (cooldownDb t) 1 now).1 =
        { action := .resent, alertId := some 1, reason := none } ∧
      ((evaluateStockCriticalTx (cooldownDb t) 1 now).2.alerts.map
        StockAlert.lastSentAt) = [some now]) := by
  have hfl : isFleteTipo (some "Producto") = false := by decide
  constructor
  · intro h
    have hc : now ≤ t + 21600000 := by omega
    simp [evaluateStockCriticalTx, cooldownDb, singleInvDb, singleInv, tornillo, openAlert,
      findActiveAlert, activeAlertsFor, pickLatestAlert, effectiveThreshold, effectiveCooldown,
      isCriticalStock, DEFAULT_COOLDOWN_MINUTES, List.find?, List.filter, hfl, hc]
  · intro h
    have hc : ¬(now ≤ t + 21600000) := by omega
    simp [evaluateStockCriticalTx, cooldownDb, singleInvDb, singleInv, tornillo, openAlert,
      findActiveAlert, activeAlertsFor, pickLatestAlert, effectiveThreshold, effectiveCooldown,
      isCriticalStock, DEFAULT_COOLDOWN_MINUTES, List.find?, List.filter, hfl, hc,
      resendAlertWrites, pushNotificacion]

/-- Witness for C2 at concrete inputs: at T + 359 min the evaluation is
noop/cooldown with no state change, and at T + 360 min + 1 ms it resends. -/
theorem C2_cooldown_strict_witness :
    ((21540000 : Int) - 0 ≤ 360 * 60 * 1000 ∧
      evaluateStockCriticalTx (cooldownDb 0) 1 21540000 =
        ({ action := .noop, alertId := none, reason := some "cooldown" }, cooldownDb 0)) ∧
    ((21600001 : Int) - 0 > 360 * 60 * 1000 ∧
      (evaluateStockCriticalTx (cooldownDb 0) 1 21600001).1 =
        { action := .resent, alertId := some 1, reason := none }) :=
  ⟨⟨by decide, (C2_cooldown_strict 0 21540000).1 (by decide)⟩,
    ⟨by decide, ((C2_cooldown_strict 0 21600001).2 (by decide)).1⟩⟩

/-- Store with a critical inventory (stock 0, minimo 5) and no alert yet. -/
def criticalNoAlertDb : DB := singleInvDb 0 5 [] []

/-- Counterexample to claim C5 as stated: a PATCH whose `stock` field equals
the current stock (0 → 0) changes nothing, yet the evaluator runs and even
creates an alert (`stockCritical.action = created`), because the trigger
condition is field presence, not an actual change. -/
theorem C5_counterexample_no_change :
    (updateInventario criticalNoAlertDb 1 { stock := some 0 } 7).toOption.map
      (fun r => r.stockCritical.action) = some .created ∧
    (updateInventario criticalNoAlertDb 1 { stock := some 0 } 7).toOption.map
      (fun r => r.inventario.stock) = some 0 ∧
    (singleInv 0 5).stock = 0 := by
  decide

/-- Claim C5, amended: `updateInventario` runs the evaluator exactly when the
request body defines `stock` or `minimo` — even when the new value equals the
old one — and an edit touching only other fields (codigo/ubicacion) answers
`stockCritical = noop` without evaluating (alerts, rules and notifications
untouched); the evaluation happens right after the update, on the patched
store. -/
theorem C5_update_trigger :
    (∀ (db : DB) (id : Nat) (body : UpdateBody) (now : Millis) (r : InvOpResult),
        body.stock = none → body.minimo = none →
        updateInventario db id body now = .ok r →
        r.stockCritical = { action := .noop } ∧ r.db.alerts = db.alerts ∧
        r.db.rules = db.rules ∧ r.db.notificaciones = db.notificaciones) ∧
    (∀ (db : DB) (id : Nat) (body : UpdateBody) (now : Millis) (r : InvOpResult)
        (current : Inventario),
        db.inventarios.find? (fun i => i.id == id) = some current →
        (body.stock.isSome || body.minimo.isSome) = true →
        updateInventario db id body now = .ok r →
        r.stockCritical =
          (evaluateStockCritical (patchInventarioDb db id current body) id now).1 ∧
        r.db = (evaluateStockCritical (patchInventarioDb db id current body) id now).2) := by
  constructor
  · intro db id body now r hstock hminimo hok
    unfold updateInventario at hok
    cases hfind : db.inventarios.find? (fun i => i.id == id) with
    | none =>
      simp only [hfind] at hok
      exact absurd hok (by simp)
    | some current =>
      simp only [hfind] at hok
      cases hass : assertProductoNoEsFlete db current.productoId with
      | error e =>
        simp only [hass] at hok
        exact absurd hok (by simp)
      | ok u =>
        have htouched : (body.stock.isSome || body.minimo.isSome) = false := by
          rw [hstock, hminimo]
          rfl
        simp only [hass, htouched, Bool.false_eq_true, if_false, Except.ok.injEq] at hok
        subst hok
        exact ⟨rfl, rfl, rfl, rfl⟩
  · intro db id body now r current hfind htouched hok
    unfold updateInventario at hok
    simp only [hfind] at hok
    cases hass : assertProductoNoEsFlete db current.productoId with
    | error e =>
      simp only [hass] at hok
      exact absurd hok (by simp)
    | ok u =>
      simp only [hass, htouched, if_true, Except.ok.injEq] at hok
      subst hok
      exact ⟨rfl, rfl⟩

/-- The result of an edit that only changes the location. -/
def locationEditRes : InvOpResult :=
  (updateInventario criticalNoAlertDb 1 { ubicacion := some (some "B2") } 7).toOption.getD
    default

/-- Witness for C5 at a concrete input: a location-only edit answers
`stockCritical = noop` and leaves the alert table untouched. -/
theorem C5_update_trigger_witness :
    locationEditRes.stockCritical = { action := .noop } ∧
    locationEditRes.db.alerts = criticalNoAlertDb.alerts :=
  ⟨(C5_update_trigger.1 criticalNoAlertDb 1 { ubicacion := some (some "B2") } 7
      locationEditRes rfl rfl rfl).1,
    (C5_update_trigger.1 criticalNoAlertDb 1 { ubicacion := some (some "B2") } 7
      locationEditRes rfl rfl rfl).2.1⟩

/-- Specification-side: what makes sheet row `i` (0-based data row `r`)
fail, independent of the store — its validation error, or the storage
failure the oracle assigns to its transaction. -/
def rowFailureSpec (failAt : Nat → Option String) (i : Nat) (r : RawRow) : Option String :=
  match parseImportRow r with
  | .error e => some e
  | .ok _ => failAt i

/-- Specification-side: the error report of a batch — exactly one
`(i + 2, error)` entry per failing row, independent of the store. -/
def importErroresSpec (failAt : Nat → Option String) : Nat → List RawRow → List (Nat × String)
  | _, [] => []
  | i, r :: rest =>
    match rowFailureSpec failAt i r with
    | some e => (i + 2, e) :: importErroresSpec failAt (i + 1) rest
    | none => importErroresSpec failAt (i + 1) rest

/-- Specification-side: the final store — the fold of exactly the successful
rows' transactions, each failing row skipped whole. -/
def importCommitsSpec (failAt : Nat → Option String) (now : Millis) :
    Nat → DB → List RawRow → DB
  | _, db, [] => db
  | i, db, r :: rest =>
    match parseImportRow r with
    | .ok row =>
      match failAt i with
      | none => importCommitsSpec failAt now (i + 1) (importRowTx db row now).2 rest
      | some _ => importCommitsSpec failAt now (i + 1) db rest
    | .error _ => importCommitsSpec failAt now (i + 1) db rest

/-- Specification-side: the four counters, summed over successful rows
only. -/
def importCountsSpec (failAt : Nat → Option String) (now : Millis) :
    Nat → DB → List RawRow → Nat × Nat × Nat × Nat
  | _, _, [] => (0, 0, 0, 0)
  | i, db, r :: rest =>
    match parseImportRow r with
    | .ok row =>
      match failAt i with
      | none =>
        let step := importRowTx db row now
        let tail := importCountsSpec failAt now (i + 1) step.2 rest
        ((if step.1.productoCreated then 1 else 0) + tail.1,
          (if step.1.productoUpdated then 1 else 0) + tail.2.1,
          (if step.1.invCreated then 1 else 0) + tail.2.2.1,
          (if step.1.invUpdated then 1 else 0) + tail.2.2.2)
      | some _ => importCountsSpec failAt now (i + 1) db rest
    | .error _ => importCountsSpec failAt now (i + 1) db rest

/-- The import loop decomposes: errors are independent of the store, the
final store is the fold of the successful rows only, and the counters count
successful rows only. -/
theorem importLoop_decompose (failAt : Nat → Option String) (now : Millis) :
    ∀ (rows : List RawRow) (i : Nat) (db : DB),
      (importLoop db rows i failAt now).errores = importErroresSpec failAt i rows ∧
      (importLoop db rows i failAt now).db = importCommitsSpec failAt now i db rows ∧
      ((importLoop db rows i failAt now).createdProductos,
        (importLoop db rows i failAt now).updatedProductos,
        (importLoop db rows i failAt now).createdInventarios,
        (importLoop db rows i failAt now).updatedInventarios) =
          importCountsSpec failAt now i db rows := by
  intro rows
  induction rows with
  | nil => exact fun i db => ⟨rfl, rfl, rfl⟩
  | cons r rest ih =>
    intro i db
    cases hp : parseImportRow r with
    | error e =>
      have h1 := (ih (i + 1) db).1
      have h2 := (ih (i + 1) db).2.1
      have h3 := (ih (i + 1) db).2.2
      simp only [importLoop, importErroresSpec, importCommitsSpec, importCountsSpec,
        rowFailureSpec, hp] at *
      exact ⟨by rw [h1], h2, h3⟩
    | ok row =>
      cases hf : failAt i with
      | some msg =>
        have h1 := (ih (i + 1) db).1
        have h2 := (ih (i + 1) db).2.1
        have h3 := (ih (i + 1) db).2.2
        simp only [importLoop, importErroresSpec, importCommitsSpec, importCountsSpec,
          rowFailureSpec, hp, hf] at *
        exact ⟨by rw [h1], h2, h3⟩
      | none =>
        have h1 := (ih (i + 1) (importRowTx db row now).2).1
        have h2 := (ih (i + 1) (importRowTx db row now).2).2.1
        have h3 := (ih (i + 1) (importRowTx db row now).2).2.2
        simp only [importLoop, importErroresSpec, importCommitsSpec, importCountsSpec,
          rowFailureSpec, hp, hf] at *
        refine ⟨h1, h2, ?_⟩
        rw [← h3]

/-- Every reported entry of `importErroresSpec` carries a sheet row number in
`[i + 2, i + length + 2)`. -/
theorem importErroresSpec_row_bounds (failAt : Nat → Option String) :
    ∀ (rows : List RawRow) (i : Nat) (e : Nat × String),
      e ∈ importErroresSpec failAt i rows → i + 2 ≤ e.1 ∧ e.1 < i + rows.length + 2 := by
  intro rows
  induction rows with
  | nil => intro i e he; exact absurd he (by simp [importErroresSpec])
  | cons r rest ih =>
    intro i e he
    unfold importErroresSpec at he
    cases hr : rowFailureSpec failAt i r with
    | some msg =>
      rw [hr] at he
      rcases List.mem_cons.mp he with heq | hmem
      · subst heq
        show i + 2 ≤ i + 2 ∧ i + 2 < i + (r :: rest).length + 2
        simp only [List.length_cons]
        omega
      · obtain ⟨h1, h2⟩ := ih (i + 1) e hmem
        simp only [List.length_cons]
        omega
    | none =>
      rw [hr] at he
      obtain ⟨h1, h2⟩ := ih (i + 1) e he
      simp only [List.length_cons]
      omega

/-- A store with no rows at all. -/
def emptyDb : DB :=
  { productos := [], inventarios := [], rules := [], alerts := [], movimientos := []
    notificaciones := [], nextProductoId := 1, nextInventarioId := 1, nextAlertId := 1
    nextMovId := 1 }

/-- A valid import row. -/
def importRow1 : RawRow :=
  { sku := "SKU-1", codigo := "INV-1", nombre := "Tornillo", tipo := "Producto"
    precio := .fin 10, stock := .fin 4, minimo := .fin 2, fotourl := "" }

/-- Sheet data row 2 (Excel row 3) with an invalid category string. -/
def importRow2 : RawRow :=
  { importRow1 with sku := "SKU-2", codigo := "INV-2", nombre := "Masa", tipo := "Cemento" }

/-- Another valid import row. -/
def importRow3 : RawRow :=
  { importRow1 with sku := "SKU-3", codigo := "INV-3", nombre := "Clavo" }

/-- Claim C9: bulk import isolates failures per row — the error report lists
exactly one `(sheetIndex + 2, error)` entry per failing row and is
independent of the store, the final store is the fold of exactly the
successful rows (no failing row aborts or rolls back any other row), the
counters reflect only the successful rows, and on the spec's 3-row scenario
(row 2 with an invalid category) the response reports the single error
`(3, tipo inválido…)`, while rows 1 and 3 are committed. -/
theorem C9_import_row_isolation :
    (∀ (rows : List RawRow) (db : DB) (failAt : Nat → Option String) (now : Millis),
      (importInventarioExcel db rows failAt now).errores = importErroresSpec failAt 0 rows ∧
      (importInventarioExcel db rows failAt now).db = importCommitsSpec failAt now 0 db rows ∧
      ((importInventarioExcel db rows failAt now).createdProductos,
        (importInventarioExcel db rows failAt now).updatedProductos,
        (importInventarioExcel db rows failAt now).createdInventarios,
        (importInventarioExcel db rows failAt now).updatedInventarios) =
          importCountsSpec failAt now 0 db rows ∧
      (∀ e ∈ (importInventarioExcel db rows failAt now).errores,
        2 ≤ e.1 ∧ e.1 < rows.length + 2)) ∧
    ((importInventarioExcel emptyDb [importRow1, importRow2, importRow3]
        (fun _ => none) 0).errores =
      [(3, "tipo inválido. Valores permitidos: Producto, Servicio")] ∧
      (importInventarioExcel emptyDb [importRow1, importRow2, importRow3]
        (fun _ => none) 0).createdProductos = 2 ∧
      (importInventarioExcel emptyDb [importRow1, importRow2, importRow3]
        (fun _ => none) 0).createdInventarios = 2 ∧
      ((importInventarioExcel emptyDb [importRow1, importRow2, importRow3]
        (fun _ => none) 0).db.productos.map Producto.sku) =
        [some "SKU-1", some "SKU-3"]) := by
  constructor
  · intro rows db failAt now
    have hd := importLoop_decompose failAt now rows 0 db
    unfold importInventarioExcel
    refine ⟨hd.1, hd.2.1, hd.2.2, ?_⟩
    intro e he
    rw [hd.1] at he
    have := importErroresSpec_row_bounds failAt rows 0 e he
    omega
  · decide

/-- Witness for C9 at the concrete 3-row scenario: the single reported entry
is for sheet row 3 and lies in the legal range. -/
theorem C9_import_row_isolation_witness :
    (3, "tipo inválido. Valores permitidos: Producto, Servicio") ∈
      (importInventarioExcel emptyDb [importRow1, importRow2, importRow3]
        (fun _ => none) 0).errores ∧
    (2 ≤ 3 ∧ 3 < [importRow1, importRow2, importRow3].length + 2) :=
  ⟨by decide,
    C9_import_row_isolation.1 [importRow1, importRow2, importRow3] emptyDb
      (fun _ => none) 0 |>.2.2.2
      (3, "tipo inválido. Valores permitidos: Producto, Servicio") (by decide)⟩

/- ================== C1: at most one active alert ================== -/

/-- `pickLatestAlert` only yields `none` on the empty list. -/
theorem pickLatestAlert_eq_none {l : List StockAlert} (h : pickLatestAlert l = none) :
    l = [] := by
  cases l with
  | nil => rfl
  | cons a rest =>
    exfalso
    unfold pickLatestAlert at h
    cases h' : pickLatestAlert rest with
    | none =>
      simp only [h'] at h
      exact absurd h (by simp)
    | some b =>
      simp only [h'] at h
      split at h <;> simp at h

/-- Mapping a function that cannot turn a non-member of the filter into a
member does not increase the filtered length. -/
theorem length_filter_map_le (g : StockAlert → StockAlert) (p : StockAlert → Bool) :
    ∀ l : List StockAlert, (∀ a ∈ l, p (g a) = true → p a = true) →
      ((l.map g).filter p).length ≤ (l.filter p).length := by
  intro l
  induction l with
  | nil => intro _; exact le_refl _
  | cons a rest ih =>
    intro hg
    have hga := hg a (by simp)
    have hrest := ih (fun x hx => hg x (by simp [hx]))
    simp only [List.map_cons, List.filter_cons]
    by_cases hpga : p (g a) = true
    · rw [if_pos hpga, if_pos (hga hpga)]
      simp only [List.length_cons]
      omega
    · rw [if_neg hpga]
      by_cases hpa : p a = true
      · rw [if_pos hpa]
        simp only [List.length_cons]
        omega
      · rw [if_neg hpa]
        exact hrest

/-- Mapping a function that preserves the filter predicate preserves the
filtered length. -/
theorem length_filter_map_eq (g : StockAlert → StockAlert) (p : StockAlert → Bool) :
    ∀ l : List StockAlert, (∀ a ∈ l, p (g a) = p a) →
      ((l.map g).filter p).length = (l.filter p).length := by
  intro l
  induction l with
  | nil => intro _; rfl
  | cons a rest ih =>
    intro hg
    have hga := hg a (by simp)
    have hrest := ih (fun x hx => hg x (by simp [hx]))
    simp only [List.map_cons, List.filter_cons, hga]
    by_cases hpa : p a = true
    · rw [if_pos hpa, if_pos hpa]
      simp only [List.length_cons, hrest]
    · rw [if_neg hpa, if_neg hpa]
      exact hrest

/-- Deleting rows never increases a filtered length. -/
theorem length_filter_filter_le (p q : StockAlert → Bool) :
    ∀ l : List StockAlert, (((l.filter q).filter p).length ≤ (l.filter p).length) := by
  intro l
  induction l with
  | nil => exact le_refl _
  | cons a rest ih =>
    simp only [List.filter_cons]
    by_cases hqa : q a = true
    · rw [if_pos hqa]
      simp only [List.filter_cons]
      by_cases hpa : p a = true
      · rw [if_pos hpa, if_pos hpa]
        simp only [List.length_cons]
        omega
      · rw [if_neg hpa, if_neg hpa]
        exact ih
    · rw [if_neg hqa]
      by_cases hpa : p a = true
      · rw [if_pos hpa]
        simp only [List.length_cons]
        omega
      · rw [if_neg hpa]
        exact ih

/-- The claimed invariant: at most one active alert per inventory id. -/
def AtMostOneActive (db : DB) : Prop :=
  ∀ inventarioId : Nat, (activeAlertsFor db inventarioId).length ≤ 1

/-- The store's alert-table well-formedness: the invariant, plus the store's
primary-key guarantee (alert ids are unique) and id-generation freshness
(every stored id is below the generator's counter). -/
def AlertsWF (db : DB) : Prop :=
  AtMostOneActive db ∧ (db.alerts.map StockAlert.id).Nodup ∧
    ∀ a ∈ db.alerts, a.id < db.nextAlertId

/-- Well-formedness only looks at `alerts` and `nextAlertId`. -/
theorem alertsWF_of_eq {db db' : DB} (ha : db'.alerts = db.alerts)
    (hn : db'.nextAlertId = db.nextAlertId) (h : AlertsWF db) : AlertsWF db' := by
  obtain ⟨h1, h2, h3⟩ := h
  refine ⟨?_, ?_, ?_⟩
  · intro j
    have := h1 j
    simpa [activeAlertsFor, ha] using this
  · rw [ha]
    exact h2
  · intro a hmem
    rw [ha] at hmem
    rw [hn]
    exact h3 a hmem

/-- Appending one fresh active alert for an inventory that has none keeps
the store well formed. -/
theorem alertsWF_append_fresh (db db' : DB) (na : StockAlert)
    (hid : na.id = db.nextAlertId)
    (hempty : activeAlertsFor db na.inventarioId = [])
    (ha : db'.alerts = db.alerts ++ [na])
    (hn : db'.nextAlertId = db.nextAlertId + 1)
    (h : AlertsWF db) : AlertsWF db' := by
  obtain ⟨h1, h2, h3⟩ := h
  refine ⟨?_, ?_, ?_⟩
  · intro j
    show (List.filter _ db'.alerts).length ≤ 1
    rw [ha, List.filter_append, List.length_append]
    by_cases hj : j = na.inventarioId
    · have h0 : (db.alerts.filter (fun x => x.inventarioId == j && x.isActive)).length = 0 := by
        have := congrArg List.length hempty
        rw [hj]
        simpa [activeAlertsFor] using this
      rw [h0]
      have hle : (List.filter (fun x => x.inventarioId == j && x.isActive) [na]).length ≤ 1 := by
        refine le_trans (List.length_filter_le _ _) ?_
        simp
      omega
    · have hfna : (List.filter (fun x => x.inventarioId == j && x.isActive) [na]).length = 0 := by
        have hne : (na.inventarioId == j) = false := by
          simp
          intro hcontra
          exact hj hcontra.symm
        simp [List.filter, hne]
      rw [hfna]
      have := h1 j
      simp only [activeAlertsFor] at this
      omega
  · rw [ha, List.map_append, List.nodup_append]
    refine ⟨h2, by simp, ?_⟩
    intro x hx hx'
    simp only [List.map_cons, List.map_nil, List.mem_singleton] at hx'
    subst hx'
    simp only [List.mem_map] at hx
    obtain ⟨y, hy, hyid⟩ := hx
    have := h3 y hy
    rw [hyid, hid] at this
    exact absurd this (by omega)
  · intro a hmem
    rw [ha] at hmem
    rw [hn]
    rcases List.mem_append.mp hmem with hm | hm
    · have := h3 a hm
      omega
    · simp only [List.mem_singleton] at hm
      subst hm
      rw [hid]
      omega

/-- Mapping an update that keeps ids, keeps inventory ids and never
activates an alert keeps the store well formed. -/
theorem alertsWF_map_nonactivating (db db' : DB) (g : StockAlert → StockAlert)
    (hg_id : ∀ x ∈ db.alerts, (g x).id = x.id)
    (hg_inv : ∀ x ∈ db.alerts, (g x).inventarioId = x.inventarioId)
    (hg_act : ∀ x ∈ db.alerts, (g x).isActive = x.isActive ∨ (g x).isActive = false)
    (ha : db'.alerts = db.alerts.map g) (hn : db'.nextAlertId = db.nextAlertId)
    (h : AlertsWF db) : AlertsWF db' := by
  obtain ⟨h1, h2, h3⟩ := h
  refine ⟨?_, ?_, ?_⟩
  · intro j
    show (List.filter _ db'.alerts).length ≤ 1
    rw [ha]
    refine le_trans (length_filter_map_le g _ db.alerts ?_) (h1 j)
    intro x hx hpx
    simp only [Bool.and_eq_true, beq_iff_eq] at hpx ⊢
    obtain ⟨hpi, hpa⟩ := hpx
    rw [hg_inv x hx] at hpi
    rcases hg_act x hx with hact | hact
    · rw [hact] at hpa
      exact ⟨hpi, hpa⟩
    · rw [hact] at hpa
      exact absurd hpa (by simp)
  · rw [ha, List.map_map]
    have : db.alerts.map (StockAlert.id ∘ g) = db.alerts.map StockAlert.id :=
      List.map_congr_left (fun x hx => hg_id x hx)
    rw [this]
    exact h2
  · intro a hmem
    rw [ha] at hmem
    simp only [List.mem_map] at hmem
    obtain ⟨y, hy, hya⟩ := hmem
    rw [hn, ← hya, hg_id y hy]
    exact h3 y hy

/-- Deleting alert rows keeps the store well formed. -/
theorem alertsWF_filter (db db' : DB) (q : StockAlert → Bool)
    (ha : db'.alerts = db.alerts.filter q) (hn : db'.nextAlertId = db.nextAlertId)
    (h : AlertsWF db) : AlertsWF db' := by
  obtain ⟨h1, h2, h3⟩ := h
  refine ⟨?_, ?_, ?_⟩
  · intro j
    show (List.filter _ db'.alerts).length ≤ 1
    rw [ha]
    exact le_trans (length_filter_filter_le _ q db.alerts) (h1 j)
  · rw [ha]
    exact h2.sublist ((List.filter_sublist _).map StockAlert.id)
  · intro a hmem
    rw [ha] at hmem
    rw [hn]
    exact h3 a (List.mem_of_mem_filter hmem)

/-- `createAlertWrites` appends exactly the freshly numbered active alert. -/
theorem createAlertWrites_alerts (db : DB) (inv : Inventario) (hasRule : Bool)
    (th : Int) (nom : String) (now : Millis) :
    ((createAlertWrites db inv hasRule th nom now).2).alerts = db.alerts ++
      [{ id := db.nextAlertId, inventarioId := inv.id, threshold := th
         stockAtAlert := inv.stock, status := .OPEN, isActive := true, openedAt := now
         lastSentAt := some now, ackAt := none, resolvedAt := none, channel := "system" }] := by
  cases hasRule <;> rfl

/-- `createAlertWrites` bumps the alert id generator. -/
theorem createAlertWrites_nextAlertId (db : DB) (inv : Inventario) (hasRule : Bool)
    (th : Int) (nom : String) (now : Millis) :
    ((createAlertWrites db inv hasRule th nom now).2).nextAlertId = db.nextAlertId + 1 := by
  cases hasRule <;> rfl

/-- `resendAlertWrites` maps the refresh update over the alert table. -/
theorem resendAlertWrites_alerts (db : DB) (inv : Inventario) (alertId : Nat)
    (hasRule : Bool) (th : Int) (nom : String) (now : Millis) :
    (resendAlertWrites db inv alertId hasRule th nom now).alerts =
      db.alerts.map (fun a => if a.id == alertId then
        { a with lastSentAt := some now, stockAtAlert := inv.stock, threshold := th }
      else a) := by
  cases hasRule <;> rfl

/-- `resendAlertWrites` keeps the alert id generator. -/
theorem resendAlertWrites_nextAlertId (db : DB) (inv : Inventario) (alertId : Nat)
    (hasRule : Bool) (th : Int) (nom : String) (now : Millis) :
    (resendAlertWrites db inv alertId hasRule th nom now).nextAlertId = db.nextAlertId := by
  cases hasRule <;> rfl

/-- The evaluator keeps the alert table well formed; in particular it only
creates a new active alert when the inventory has none. -/
theorem evaluateStockCriticalTx_preservesWF (db : DB) (inventarioId : Nat) (now : Millis)
    (h : AlertsWF db) : AlertsWF ((evaluateStockCriticalTx db inventarioId now).2) := by
  rcases evaluateStockCriticalTx_cases db inventarioId now
      (evaluateStockCriticalTx db inventarioId now).1
      (evaluateStockCriticalTx db inventarioId now).2 rfl with
    ⟨_, h2⟩ | ⟨_, hact, inv, hasRule, th, nom, hfind, h2⟩ |
    ⟨_, a, inv, hasRule, th, nom, hact, _, h2⟩ | ⟨_, a, hact, _, h2⟩
  · rw [h2]
    exact h
  · rw [h2]
    have hinvid : inv.id = inventarioId := by
      have := List.find?_some hfind
      simpa using this
    have hempty : activeAlertsFor db inventarioId = [] := by
      apply pickLatestAlert_eq_none
      exact hact
    refine alertsWF_append_fresh db _ _ rfl ?_
      (createAlertWrites_alerts db inv hasRule th nom now)
      (createAlertWrites_nextAlertId db inv hasRule th nom now) h
    show activeAlertsFor db inv.id = []
    rw [hinvid]
    exact hempty
  · rw [h2]
    refine alertsWF_map_nonactivating db _ _ ?_ ?_ ?_
      (resendAlertWrites_alerts db inv a.id hasRule th nom now)
      (resendAlertWrites_nextAlertId db inv a.id hasRule th nom now) h
    · intro x _
      by_cases hx : (x.id == a.id) = true <;> simp [hx]
    · intro x _
      by_cases hx : (x.id == a.id) = true <;> simp [hx]
    · intro x _
      by_cases hx : (x.id == a.id) = true <;> simp [hx]
  · rw [h2]
    refine alertsWF_map_nonactivating db _ _ ?_ ?_ ?_
      (resolveAlertWrites_alerts db a.id now) rfl h
    · intro x _
      by_cases hx : (x.id == a.id) = true <;> simp [hx]
    · intro x _
      by_cases hx : (x.id == a.id) = true <;> simp [hx]
    · intro x _
      by_cases hx : (x.id == a.id) = true <;> simp [hx]

/-- A completed movement evaluates over a store whose alert table is exactly
the caller's. -/
theorem createMovimientoStock_ok_db (db : DB) (inventarioId : Nat) (tipo : TipoMovimiento)
    (cantidad : Int) (nota : Option String) (now : Millis) (r : MovOpResult)
    (h : createMovimientoStock db inventarioId tipo cantidad nota now = .ok r) :
    ∃ db1 : DB, r.db = (evaluateStockCriticalTx db1 inventarioId now).2 ∧
      db1.alerts = db.alerts ∧ db1.nextAlertId = db.nextAlertId := by
  unfold createMovimientoStock at h
  cases hfind : db.inventarios.find? (fun i => i.id == inventarioId) with
  | none =>
    simp only [hfind] at h
    exact absurd h (by simp)
  | some inv =>
    simp only [hfind] at h
    split at h
    · exact absurd h (by simp)
    · split at h
      · exact absurd h (by simp)
      · cases h
        exact ⟨_, rfl, rfl, rfl⟩

/-- A completed inventory update either leaves the alert table alone or
evaluates over a store whose alert table is exactly the caller's. -/
theorem updateInventario_ok_db (db : DB) (id : Nat) (body : UpdateBody) (now : Millis)
    (r : InvOpResult) (h : updateInventario db id body now = .ok r) :
    ∃ db1 : DB, (r.db = db1 ∨ r.db = (evaluateStockCriticalTx db1 id now).2) ∧
      db1.alerts = db.alerts ∧ db1.nextAlertId = db.nextAlertId := by
  unfold updateInventario at h
  cases hfind : db.inventarios.find? (fun i => i.id == id) with
  | none =>
    simp only [hfind] at h
    exact absurd h (by simp)
  | some current =>
    simp only [hfind] at h
    cases hass : assertProductoNoEsFlete db current.productoId with
    | error e =>
      simp only [hass] at h
      exact absurd h (by simp)
    | ok u =>
      simp only [hass] at h
      split at h
      · cases h
        exact ⟨_, Or.inr rfl, rfl, rfl⟩
      · cases h
        exact ⟨_, Or.inl rfl, rfl, rfl⟩

/-- A completed inventory creation evaluates over a store whose alert table
is exactly the caller's. -/
theorem createInventario_ok_db (db : DB) (productoId : Nat) (codigo : Option String)
    (stock minimo : Int) (ubicacion : Option String) (now : Millis) (r : InvOpResult)
    (h : createInventario db productoId codigo stock minimo ubicacion now = .ok r) :
    ∃ db1 : DB, r.db = (evaluateStockCriticalTx db1 db.nextInventarioId now).2 ∧
      db1.alerts = db.alerts ∧ db1.nextAlertId = db.nextAlertId := by
  unfold createInventario at h
  cases hass : assertProductoNoEsFlete db productoId with
  | error e =>
    simp only [hass] at h
    exact absurd h (by simp)
  | ok u =>
    simp only [hass] at h
    cases h
    exact ⟨_, rfl, rfl, rfl⟩

/-- `upsertProductoBySku` does not touch the alert table. -/
theorem upsertProductoBySku_alerts (db : DB) (row : ImportRow) :
    ((upsertProductoBySku db row).2).alerts = db.alerts ∧
    ((upsertProductoBySku db row).2).nextAlertId = db.nextAlertId := by
  unfold upsertProductoBySku
  split <;> exact ⟨rfl, rfl⟩

/-- `upsertInventarioForProducto` does not touch the alert table. -/
theorem upsertInventarioForProducto_alerts (db : DB) (productoId : Nat) (row : ImportRow) :
    ((upsertInventarioForProducto db productoId row).2.2.2).alerts = db.alerts ∧
    ((upsertInventarioForProducto db productoId row).2.2.2).nextAlertId = db.nextAlertId := by
  unfold upsertInventarioForProducto
  split <;> exact ⟨rfl, rfl⟩

/-- The row transaction keeps the alert table well formed: either it ends
with an evaluator run over an untouched alert table, or it cascade-deletes
some alerts. -/
theorem importRowTx_preservesWF (db : DB) (row : ImportRow) (now : Millis)
    (h : AlertsWF db) : AlertsWF ((importRowTx db row now).2) := by
  unfold importRowTx
  have hprod := upsertProductoBySku_alerts db row
  split
  · have hinv := upsertInventarioForProducto_alerts
      (upsertProductoBySku db row).2 (upsertProductoBySku db row).1.id row
    apply evaluateStockCriticalTx_preservesWF
    refine alertsWF_of_eq ?_ ?_ (alertsWF_of_eq hprod.1 hprod.2 h)
    · exact hinv.1
    · exact hinv.2
  · refine alertsWF_filter ((upsertProductoBySku db row).2) _ _ rfl rfl
      (alertsWF_of_eq hprod.1 hprod.2 h)

/-- The two manual-alert endpoints leave ids and `isActive` untouched when
ids are unique, so they keep the alert table well formed. -/
theorem alertEndpoint_map_preservesWF (db : DB) (id : Nat) (current upd : StockAlert)
    (hfind : db.alerts.find? (fun x => x.id == id) = some current)
    (hupd_id : upd.id = current.id)
    (hupd_inv : upd.inventarioId = current.inventarioId)
    (hupd_act : upd.isActive = current.isActive)
    (h : AlertsWF db) :
    AlertsWF { db with alerts := db.alerts.map (fun x => if x.id == id then upd else x) } := by
  have hmemc : current ∈ db.alerts := List.mem_of_find?_eq_some hfind
  have hcid0 := List.find?_some hfind
  have hcid : current.id = id := by simpa using hcid0
  have hkey : ∀ x ∈ db.alerts, (x.id == id) = true → x = current := by
    intro x hx hxid
    apply List.inj_on_of_nodup_map h.2.1 hx hmemc
    have : x.id = id := by simpa using hxid
    rw [this, hcid]
  refine alertsWF_map_nonactivating db _ _ ?_ ?_ ?_ rfl rfl h
  · intro x hx
    by_cases hxid : (x.id == id) = true
    · rw [if_pos hxid, hupd_id, hkey x hx hxid]
    · rw [if_neg hxid]
  · intro x hx
    by_cases hxid : (x.id == id) = true
    · rw [if_pos hxid, hupd_inv, hkey x hx hxid]
    · rw [if_neg hxid]
  · intro x hx
    by_cases hxid : (x.id == id) = true
    · rw [if_pos hxid]
      exact Or.inl (by rw [hupd_act, hkey x hx hxid])
    · rw [if_neg hxid]
      exact Or.inl rfl

/-- `ackStockAlert` keeps the alert table well formed. -/
theorem ackStockAlert_preservesWF (db : DB) (id : Nat) (now : Millis) (r : AlertOpResult)
    (hok : ackStockAlert db id now = .ok r) (h : AlertsWF db) : AlertsWF r.db := by
  unfold ackStockAlert at hok
  cases hfind : db.alerts.find? (fun x => x.id == id) with
  | none =>
    simp only [hfind] at hok
    exact absurd hok (by simp)
  | some current =>
    simp only [hfind] at hok
    split at hok
    · cases hok
      exact h
    · cases hok
      exact alertEndpoint_map_preservesWF db id current _ hfind rfl rfl rfl h

/-- `resolveStockAlert` keeps the alert table well formed. -/
theorem resolveStockAlert_preservesWF (db : DB) (id : Nat) (now : Millis) (r : AlertOpResult)
    (hok : resolveStockAlert db id now = .ok r) (h : AlertsWF db) : AlertsWF r.db := by
  unfold resolveStockAlert at hok
  cases hfind : db.alerts.find? (fun x => x.id == id) with
  | none =>
    simp only [hfind] at hok
    exact absurd hok (by simp)
  | some current =>
    simp only [hfind] at hok
    split at hok
    · cases hok
      exact h
    · cases hok
      exact alertEndpoint_map_preservesWF db id current _ hfind rfl rfl rfl h

/-- Every operation keeps the alert table well formed. -/
theorem applyOp_preservesWF (db : DB) (op : Op) (h : AlertsWF db) :
    AlertsWF (applyOp db op) := by
  cases op with
  | evaluate invId now =>
    show AlertsWF ((evaluateStockCritical db invId now).2)
    unfold evaluateStockCritical
    exact evaluateStockCriticalTx_preservesWF db invId now h
  | movimiento invId tipo cantidad nota now =>
    show AlertsWF (match createMovimientoStock db invId tipo cantidad nota now with
      | .ok r => r.db
      | .error _ => db)
    cases hres : createMovimientoStock db invId tipo cantidad nota now with
    | error e => exact h
    | ok r =>
      obtain ⟨db1, hdb, ha, hn⟩ := createMovimientoStock_ok_db db invId tipo cantidad nota now r hres
      show AlertsWF r.db
      rw [hdb]
      exact evaluateStockCriticalTx_preservesWF db1 invId now (alertsWF_of_eq ha hn h)
  | updateInv id body now =>
    show AlertsWF (match updateInventario db id body now with
      | .ok r => r.db
      | .error _ => db)
    cases hres : updateInventario db id body now with
    | error e => exact h
    | ok r =>
      obtain ⟨db1, hdb, ha, hn⟩ := updateInventario_ok_db db id body now r hres
      rcases hdb with hdb | hdb
      · show AlertsWF r.db
        rw [hdb]
        exact alertsWF_of_eq ha hn h
      · show AlertsWF r.db
        rw [hdb]
        exact evaluateStockCriticalTx_preservesWF db1 id now (alertsWF_of_eq ha hn h)
  | createInv productoId codigo stock minimo ubicacion now =>
    show AlertsWF (match createInventario db productoId codigo stock minimo ubicacion now with
      | .ok r => r.db
      | .error _ => db)
    cases hres : createInventario db productoId codigo stock minimo ubicacion now with
    | error e => exact h
    | ok r =>
      obtain ⟨db1, hdb, ha, hn⟩ :=
        createInventario_ok_db db productoId codigo stock minimo ubicacion now r hres
      show AlertsWF r.db
      rw [hdb]
      exact evaluateStockCriticalTx_preservesWF db1 db.nextInventarioId now
        (alertsWF_of_eq ha hn h)
  | importRow raw txFailure now =>
    show AlertsWF (match parseImportRow raw with
      | .error _ => db
      | .ok row => match txFailure with
        | some _ => db
        | none => (importRowTx db row now).2)
    cases hp : parseImportRow raw with
    | error e => exact h
    | ok row =>
      cases txFailure with
      | some msg => exact h
      | none => exact importRowTx_preservesWF db row now h
  | ack alertId now =>
    show AlertsWF (match ackStockAlert db alertId now with
      | .ok r => r.db
      | .error _ => db)
    cases hres : ackStockAlert db alertId now with
    | error e => exact h
    | ok r => exact ackStockAlert_preservesWF db alertId now r hres h
  | resolveManual alertId now =>
    show AlertsWF (match resolveStockAlert db alertId now with
      | .ok r => r.db
      | .error _ => db)
    cases hres : resolveStockAlert db alertId now with
    | error e => exact h
    | ok r => exact resolveStockAlert_preservesWF db alertId now r hres h

/-- Claim C1: starting from any store satisfying the invariant (with the
store's primary-key uniqueness of alert ids and a fresh id counter), every
state reachable by any sequence of the six operations — evaluate, movement
posting, direct edit, bulk-import row, acknowledge, manual resolve — has at
most one `StockAlert` with `isActive = true` per inventory id: the evaluator
creates a new active alert only when none exists and its resolve transition
deactivates the found one; no other operation activates an alert. -/
theorem C1_at_most_one_active_alert :
    ∀ (ops : List Op) (db : DB),
      AtMostOneActive db →
      (db.alerts.map StockAlert.id).Nodup →
      (∀ a ∈ db.alerts, a.id < db.nextAlertId) →
      AtMostOneActive (List.foldl applyOp db ops) := by
  intro ops
  induction ops with
  | nil => intro db h1 _ _; exact h1
  | cons op rest ih =>
    intro db h1 h2 h3
    have hwf : AlertsWF (applyOp db op) := applyOp_preservesWF db op ⟨h1, h2, h3⟩
    exact ih (applyOp db op) hwf.1 hwf.2.1 hwf.2.2

/-- An exercise sequence touching every operation kind. -/
def c1Ops : List Op :=
  [.movimiento 1 .Entrada 10 none 5, .evaluate 1 6, .ack 1 7, .resolveManual 1 8,
    .updateInv 1 { stock := some 0 } 9, .importRow importRow1 none 10,
    .createInv 1 none 3 5 none 11]

/-- Witness for C1 at a concrete input: starting from the store with one
open active alert, the invariant holds after the whole operation sequence
(checked at inventory id 1). -/
theorem C1_at_most_one_active_alert_witness :
    (activeAlertsFor (List.foldl applyOp openActiveDb c1Ops) 1).length ≤ 1 := by
  have hinv : AtMostOneActive openActiveDb := by
    intro j
    refine le_trans (List.length_filter_le _ _) ?_
    decide
  exact C1_at_most_one_active_alert c1Ops openActiveDb hinv (by decide) (by decide) 1

end Covasa
